import Mathlib

/-!
Verification of the DNSSEC proof evaluator (dnsviz/analysis/status.py).

DNS names are modelled as label lists, leaf label first, with the root label
omitted; the parent of a name drops its first label, and a name x is a
subdomain of y exactly when y is a suffix of x.  Machine-level details that
the evaluators never branch on (rdata bytes, canonical text forms carried in
error payloads) are abstracted away; the cryptographic primitives and the
NSEC set view are the external collaborators of the evaluators and are
modelled as inputs (their verdicts and query functions are fields of the
input structures).  Constructors that can raise in the source (attribute or
name errors) are modelled as functions into Option, where none is the raised
exception.
-/

namespace DNSViz

abbrev Name := List String

def RDTYPE_NS : Nat := 2
def RDTYPE_CNAME : Nat := 5
def RDTYPE_SOA : Nat := 6
def RDTYPE_DS : Nat := 43
def RDTYPE_DNSKEY : Nat := 48

/-- The revoke flag bit of a DNSKEY (fmt.DNSKEY_FLAGS, 0x0080). -/
def DNSKEY_FLAG_REVOKE : Nat := 128

/-- The error and warning taxonomy (module errors).  Payload fields that the
evaluators never branch on are dropped; UnsupportedNSEC3Algorithm keeps its
algorithm because the NSEC3 evaluators deduplicate that error by value. -/
inductive DNSErr
  | AlgorithmNotSupported
  | RRsetTTLMismatch
  | OriginalTTLExceeded
  | SignerNotZone
  | DNSKEYRevokedRRSIG
  | InceptionInFuture
  | ExpirationInPast
  | TTLBeyondExpiration
  | SignatureInvalid
  | DigestAlgorithmNotSupported
  | DNSKEYRevokedDS
  | DigestInvalid
  | SnameNotCoveredNameError
  | WildcardNotCoveredNSEC
  | LastNSECNextNotZone
  | WildcardExpansionInvalid
  | SnameNotCoveredWildcardAnswer
  | ReferralWithoutNSBitNSEC
  | ReferralWithDSBitNSEC
  | ReferralWithSOABitNSEC
  | StypeInBitmapNoDataNSEC
  | SnameNotCoveredWildcardNoData
  | NoNSECMatchingSnameNoData
  | UnsupportedNSEC3Algorithm (alg : Nat)
  | NoClosestEncloserNameError
  | NextClosestEncloserNotCoveredNameError
  | WildcardNotCoveredNSEC3
  | NextClosestEncloserNotCoveredWildcardAnswer
  | WildcardCoveredAnswerNSEC3
  | ReferralWithoutNSBitNSEC3
  | ReferralWithDSBitNSEC3
  | ReferralWithSOABitNSEC3
  | StypeInBitmapNoDataNSEC3
  | NextClosestEncloserNotCoveredWildcardNoData
  | StypeInBitmapWildcardNoDataNSEC3
  | NoNSEC3MatchingSnameDSNoData
  | NoNSEC3MatchingSnameNoData
  | DNAMENoCNAME
  | DNAMETargetMismatch
  | DNAMETTLZero
  | DNAMETTLMismatch
deriving DecidableEq, Repr

/-! ## RRSIG evaluator (class RRSIGStatus) -/

inductive RRSIGVal
  | VALID
  | INDETERMINATE_NO_DNSKEY
  | INDETERMINATE_MATCH_PRE_REVOKE
  | INDETERMINATE_UNKNOWN_ALGORITHM
  | EXPIRED
  | PREMATURE
  | INVALID_SIG
  | INVALID
deriving DecidableEq, Repr

structure DNSKEYRec where
  flags : Nat
  keyTag : Nat
deriving DecidableEq, Repr

structure RRSIGRec where
  algorithm : Nat
  originalTTL : Nat
  inception : Nat
  expiration : Nat
  keyTag : Nat
  signer : Name
  typeCovered : Nat
deriving DecidableEq, Repr

/-- Inputs of RRSIGStatus.__init__.  cryptoVerdict is the crypto
collaborator result of validate_rrsig (some true / some false / none for an
unsupported algorithm), consulted only when a dnskey is supplied; rrsigTTL
is rrset.rrsig_info[rrsig].ttl. -/
structure RRSIGInput where
  rrsetName : Name
  rrsetTTL : Nat
  rrsigTTL : Nat
  rrsig : RRSIGRec
  dnskey : Option DNSKEYRec
  zoneName : Option Name
  referenceTS : Nat
  algorithmUnknown : Bool
  cryptoVerdict : Option Bool
deriving DecidableEq, Repr

structure RRSIGState where
  validationStatus : RRSIGVal
  warnings : List DNSErr
  errors : List DNSErr
  signatureValid : Option Bool
deriving DecidableEq, Repr

/-- The idiom `if self.validation_status == RRSIG_STATUS_VALID: self.validation_status = new`. -/
def rrsigSetIfValid (cur new : RRSIGVal) : RRSIGVal :=
  if cur = RRSIGVal.VALID then new else cur

/-- self.signature_valid: None without a key, otherwise the crypto verdict. -/
def rrsigSignatureValid (i : RRSIGInput) : Option Bool :=
  match i.dnskey with
  | none => none
  | some _ => i.cryptoVerdict

/-- Keying check (status.py 159-166). -/
def rrsigKeying (i : RRSIGInput) (s : RRSIGState) : RRSIGState :=
  if s.signatureValid = none ∨ i.algorithmUnknown = true then
    match i.dnskey with
    | none =>
      { s with validationStatus := rrsigSetIfValid s.validationStatus RRSIGVal.INDETERMINATE_NO_DNSKEY }
    | some _ =>
      { s with
        validationStatus := rrsigSetIfValid s.validationStatus RRSIGVal.INDETERMINATE_UNKNOWN_ALGORITHM,
        warnings := s.warnings ++ [DNSErr.AlgorithmNotSupported] }
  else s

/-- TTL sanity checks (status.py 168-171): warning and error only, no status change. -/
def rrsigTTLCheck (i : RRSIGInput) (s : RRSIGState) : RRSIGState :=
  let s1 := if i.rrsetTTL ≠ i.rrsigTTL then { s with warnings := s.warnings ++ [DNSErr.RRsetTTLMismatch] } else s
  if i.rrsigTTL > i.rrsig.originalTTL then { s1 with errors := s1.errors ++ [DNSErr.OriginalTTLExceeded] } else s1

/-- Signer-scope mismatch condition (status.py 175-176). -/
def rrsigSignerMismatch (i : RRSIGInput) : Bool :=
  match i.zoneName with
  | some z => decide (i.rrsig.signer ≠ z)
  | none => ! (List.isSuffixOf i.rrsig.signer i.rrsetName)

/-- Signer-scope check (status.py 175-183). -/
def rrsigSigner (i : RRSIGInput) (s : RRSIGState) : RRSIGState :=
  if rrsigSignerMismatch i then
    { s with validationStatus := rrsigSetIfValid s.validationStatus RRSIGVal.INVALID,
             errors := s.errors ++ [DNSErr.SignerNotZone] }
  else s

/-- Revocation cross-check (status.py 185-193). -/
def rrsigRevoke (i : RRSIGInput) (s : RRSIGState) : RRSIGState :=
  match i.dnskey with
  | some k =>
    if k.flags &&& DNSKEY_FLAG_REVOKE ≠ 0 ∧ i.rrsig.typeCovered ≠ RDTYPE_DNSKEY then
      if i.rrsig.keyTag ≠ k.keyTag then
        { s with validationStatus := rrsigSetIfValid s.validationStatus RRSIGVal.INDETERMINATE_MATCH_PRE_REVOKE }
      else
        { s with errors := s.errors ++ [DNSErr.DNSKEYRevokedRRSIG],
                 validationStatus := rrsigSetIfValid s.validationStatus RRSIGVal.INVALID }
    else s
  | none => s

/-- Validity-window checks (status.py 195-204). -/
def rrsigWindow (i : RRSIGInput) (s : RRSIGState) : RRSIGState :=
  let minTTL := Nat.min i.rrsetTTL (Nat.min i.rrsigTTL i.rrsig.originalTTL)
  let s1 :=
    if i.referenceTS < i.rrsig.inception then
      { s with validationStatus := rrsigSetIfValid s.validationStatus RRSIGVal.PREMATURE,
               errors := s.errors ++ [DNSErr.InceptionInFuture] }
    else s
  if i.referenceTS ≥ i.rrsig.expiration then
    { s1 with validationStatus := rrsigSetIfValid s1.validationStatus RRSIGVal.EXPIRED,
              errors := s1.errors ++ [DNSErr.ExpirationInPast] }
  else if i.referenceTS + minTTL ≥ i.rrsig.expiration then
    { s1 with errors := s1.errors ++ [DNSErr.TTLBeyondExpiration] }
  else s1

/-- Cryptographic verdict check (status.py 206-211).  The source reads
self.dnskey.key_tag with no None guard; the none case is the would-be
AttributeError. -/
def rrsigCrypto (i : RRSIGInput) (s : RRSIGState) : Option RRSIGState :=
  if i.algorithmUnknown = false ∧ s.signatureValid = some false then
    match i.dnskey with
    | none => none
    | some k =>
      if k.keyTag = i.rrsig.keyTag then
        some { s with validationStatus := rrsigSetIfValid s.validationStatus RRSIGVal.INVALID_SIG,
                      errors := s.errors ++ [DNSErr.SignatureInvalid] }
      else some s
  else some s

/-- RRSIGStatus.__init__ (status.py 143-211). -/
def rrsigStatus (i : RRSIGInput) : Option RRSIGState :=
  let s0 : RRSIGState := ⟨RRSIGVal.VALID, [], [], rrsigSignatureValid i⟩
  rrsigCrypto i (rrsigWindow i (rrsigRevoke i (rrsigSigner i (rrsigTTLCheck i (rrsigKeying i s0)))))

/-! ## DS evaluator (class DSStatus) -/

inductive DSVal
  | VALID
  | INDETERMINATE_NO_DNSKEY
  | INDETERMINATE_MATCH_PRE_REVOKE
  | INDETERMINATE_UNKNOWN_ALGORITHM
  | INVALID_DIGEST
  | INVALID
deriving DecidableEq, Repr

structure DSRec where
  keyTag : Nat
  algorithm : Nat
  digestType : Nat
deriving DecidableEq, Repr

/-- Inputs of DSStatus.__init__; cryptoVerdict is the validate_ds_digest
result, consulted only when a dnskey is supplied. -/
structure DSInput where
  ds : DSRec
  dnskey : Option DNSKEYRec
  digestAlgorithmUnknown : Bool
  cryptoVerdict : Option Bool
deriving DecidableEq, Repr

structure DSState where
  validationStatus : DSVal
  warnings : List DNSErr
  errors : List DNSErr
  digestValid : Option Bool
deriving DecidableEq, Repr

def dsSetIfValid (cur new : DSVal) : DSVal :=
  if cur = DSVal.VALID then new else cur

def dsDigestValid (i : DSInput) : Option Bool :=
  match i.dnskey with
  | none => none
  | some _ => i.cryptoVerdict

/-- Keying check (status.py 281-288). -/
def dsKeying (i : DSInput) (s : DSState) : DSState :=
  if s.digestValid = none ∨ i.digestAlgorithmUnknown = true then
    match i.dnskey with
    | none => { s with validationStatus := dsSetIfValid s.validationStatus DSVal.INDETERMINATE_NO_DNSKEY }
    | some _ =>
      { s with validationStatus := dsSetIfValid s.validationStatus DSVal.INDETERMINATE_UNKNOWN_ALGORITHM,
               warnings := s.warnings ++ [DNSErr.DigestAlgorithmNotSupported] }
  else s

/-- Revocation check (status.py 290-298). -/
def dsRevoke (i : DSInput) (s : DSState) : DSState :=
  match i.dnskey with
  | some k =>
    if k.flags &&& DNSKEY_FLAG_REVOKE ≠ 0 then
      if k.keyTag ≠ i.ds.keyTag then
        { s with validationStatus := dsSetIfValid s.validationStatus DSVal.INDETERMINATE_MATCH_PRE_REVOKE }
      else
        { s with errors := s.errors ++ [DNSErr.DNSKEYRevokedDS],
                 validationStatus := dsSetIfValid s.validationStatus DSVal.INVALID }
    else s
  | none => s

/-- Digest verdict check (status.py 300-305); the unguarded
self.dnskey.key_tag read is the none case. -/
def dsDigest (i : DSInput) (s : DSState) : Option DSState :=
  if i.digestAlgorithmUnknown = false ∧ s.digestValid = some false then
    match i.dnskey with
    | none => none
    | some k =>
      if k.keyTag = i.ds.keyTag then
        some { s with validationStatus := dsSetIfValid s.validationStatus DSVal.INVALID_DIGEST,
                      errors := s.errors ++ [DNSErr.DigestInvalid] }
      else some s
  else some s

/-- DSStatus.__init__ (status.py 267-305). -/
def dsStatus (i : DSInput) : Option DSState :=
  let s0 : DSState := ⟨DSVal.VALID, [], [], dsDigestValid i⟩
  dsDigest i (dsRevoke i (dsKeying i s0))

/-! ## NSEC evaluators -/

inductive NSECVal
  | VALID
  | INDETERMINATE
  | INVALID
deriving DecidableEq, Repr

/-- The NSEC set view collaborator: owners lists the rrsets keys in
iteration order, next gives the next name of the (single) NSEC record of an
owner, bitmap is rdtype_exists_in_bitmap, covering is nsec_covering_name. -/
structure NSECSet where
  owners : List Name
  next : Name → Name
  bitmap : Name → Nat → Bool
  covering : Name → List Name
  referral : Bool

/-- project restricted to a set of owners: the structural copy keeps
exactly the named owners that the view holds. -/
def nsecProject (v : NSECSet) (keep : List Name) : List Name :=
  v.owners.filter (fun o => o ∈ keep)

/-- The wildcard scan of NSECStatusNXDOMAIN.__init__ (status.py 371-381):
starting from qname = rel ++ origin, test *.parent(cover) for each cover
strictly below origin and keep the first covered wildcard. -/
def nsecWildScan (v : NSECSet) (origin : Name) : List String → Option Name
  | [] => none
  | _ :: rest =>
    let w := "*" :: (rest ++ origin)
    if v.covering w ≠ [] then some w else nsecWildScan v origin rest

/-- Inputs of NSECStatusNXDOMAIN: qname is rel ++ origin (the source loop
walks parents until it hits origin, so qname must be below origin). -/
structure NSECNXInput where
  rel : List String
  origin : Name
  view : NSECSet

def NSECNXInput.qname (i : NSECNXInput) : Name := i.rel ++ i.origin

structure NSECNXResult where
  validationStatus : NSECVal
  errors : List DNSErr
  wildcardName : Name
  coveringQname : List Name
  coveringWildcard : List Name
  coveringOrigin : List Name
  retained : List Name
deriving DecidableEq, Repr

/-- NSECStatusNXDOMAIN.__init__ and _set_validation_status
(status.py 356-420). -/
def nsecNXDOMAIN (i : NSECNXInput) : NSECNXResult :=
  let covQ := i.view.covering i.qname
  let scan := nsecWildScan i.view i.origin i.rel
  let wName := match scan with | some w => w | none => "*" :: i.origin
  let covW := match scan with | some w => i.view.covering w | none => []
  let covO := i.view.covering i.origin
  let e1 : List DNSErr := if covQ = [] then [DNSErr.SnameNotCoveredNameError] else []
  let e2 : List DNSErr := if covW = [] then [DNSErr.WildcardNotCoveredNSEC] else []
  let e3 : List DNSErr := if covO ≠ [] then [DNSErr.LastNSECNextNotZone] else []
  let st := if covQ = [] ∨ covW = [] ∨ covO ≠ [] then NSECVal.INVALID else NSECVal.VALID
  let retained := if st = NSECVal.VALID then nsecProject i.view (covQ ++ covW) else i.view.owners
  ⟨st, e1 ++ e2 ++ e3, wName, covQ, covW, covO, retained⟩

/-- Inputs of NSECStatusWildcard: the wildcard name that expanded is given. -/
structure NSECWCInput where
  rel : List String
  origin : Name
  wildcardName : Name
  view : NSECSet

def NSECWCInput.qname (i : NSECWCInput) : Name := i.rel ++ i.origin

/-- The next closer name of NSECStatusWildcard._next_closest_encloser:
the last len(wildcard_name) labels of qname. -/
def nsecWCNextCloser (i : NSECWCInput) : Name :=
  i.qname.drop (i.qname.length - i.wildcardName.length)

structure NSECWCResult where
  validationStatus : NSECVal
  errors : List DNSErr
  coveringQname : List Name
  coveringOrigin : List Name
  retained : List Name
deriving DecidableEq, Repr

/-- NSECStatusWildcard.__init__ and _set_validation_status2
(status.py 485-532).  The covering-wildcard data computed by the parent
constructor is discarded by the subclass before the status is set. -/
def nsecWildcard (i : NSECWCInput) : NSECWCResult :=
  let covQ := i.view.covering i.qname
  let covO := i.view.covering i.origin
  let e1 : List DNSErr :=
    if covQ ≠ [] then
      (if i.view.covering (nsecWCNextCloser i) = [] then [DNSErr.WildcardExpansionInvalid] else [])
    else [DNSErr.SnameNotCoveredWildcardAnswer]
  let bad1 : Prop := (covQ ≠ [] ∧ i.view.covering (nsecWCNextCloser i) = []) ∨ covQ = []
  let e3 : List DNSErr := if covO ≠ [] then [DNSErr.LastNSECNextNotZone] else []
  let st := if bad1 ∨ covO ≠ [] then NSECVal.INVALID else NSECVal.VALID
  let retained := if st = NSECVal.VALID then nsecProject i.view covQ else i.view.owners
  ⟨st, e1 ++ e3, covQ, covO, retained⟩

/-- Inputs of NSECStatusNoAnswer; the referral flag comes from the view. -/
structure NSECNAInput where
  rel : List String
  origin : Name
  rdtype : Nat
  view : NSECSet

def NSECNAInput.qname (i : NSECNAInput) : Name := i.rel ++ i.origin

/-- The matching-NSEC lookup of NSECStatusNoAnswer.__init__
(status.py 552-571): the rrset at qname itself, else the first NSEC in
iteration order whose next name strictly descends from qname (the empty
non-terminal fallback). -/
def nsecNAMatch (v : NSECSet) (q : Name) : Option Name :=
  if v.owners.contains q then some q
  else v.owners.find? (fun o => List.isSuffixOf q (v.next o) && !(v.next o == q))

/-- The wildcard scan of NSECStatusNoAnswer.__init__ (status.py 580-591):
unlike the NXDOMAIN scan it does not break, so the match closest to origin
(the last one assigned) wins. -/
def nsecNAWildScan (v : NSECSet) (origin : Name) : List String → Option Name
  | [] => none
  | _ :: rest =>
    let later := nsecNAWildScan v origin rest
    match later with
    | some w2 => some w2
    | none =>
      let w := "*" :: (rest ++ origin)
      if v.owners.contains w then some w else none

structure NSECNAResult where
  validationStatus : NSECVal
  errors : List DNSErr
  nsecForQname : Option Name
  coveringQname : List Name
  nsecForWildcard : Option Name
  wildcardName : Name
  retained : List Name
deriving DecidableEq, Repr

/-- NSECStatusNoAnswer.__init__ and _set_validation_status
(status.py 542-658). -/
def nsecNoAnswer (i : NSECNAInput) : NSECNAResult :=
  let v := i.view
  let q := i.qname
  let matched := v.owners.contains q
  let nsecForQ := nsecNAMatch v q
  let hasRdtype := matched && v.bitmap q i.rdtype
  let hasNS := matched && v.bitmap q RDTYPE_NS
  let hasDS := matched && v.bitmap q RDTYPE_DS
  let hasSOA := matched && v.bitmap q RDTYPE_SOA
  let covQ := v.covering q
  let scan := nsecNAWildScan v i.origin i.rel
  let wName := match scan with | some w => w | none => "*" :: i.origin
  let wHasRdtype := match scan with | some w => v.bitmap w i.rdtype | none => false
  let covO := v.covering i.origin
  let se : NSECVal × List DNSErr :=
    match nsecForQ with
    | some _ =>
      if i.rdtype = RDTYPE_DS ∨ v.referral = true then
        let e1 : List DNSErr := if hasNS = false then [DNSErr.ReferralWithoutNSBitNSEC] else []
        let e2 : List DNSErr := if hasDS = true then [DNSErr.ReferralWithDSBitNSEC] else []
        let e3 : List DNSErr := if hasSOA = true then [DNSErr.ReferralWithSOABitNSEC] else []
        (if hasNS = false ∨ hasDS = true ∨ hasSOA = true then NSECVal.INVALID else NSECVal.VALID,
         e1 ++ e2 ++ e3)
      else
        if hasRdtype = true then (NSECVal.INVALID, [DNSErr.StypeInBitmapNoDataNSEC])
        else (NSECVal.VALID, [])
    | none =>
      match scan with
      | some _ =>
        let e1 : List DNSErr := if covQ = [] then [DNSErr.SnameNotCoveredWildcardNoData] else []
        let e2 : List DNSErr := if wHasRdtype = true then [DNSErr.StypeInBitmapNoDataNSEC] else []
        let e3 : List DNSErr := if covO ≠ [] then [DNSErr.LastNSECNextNotZone] else []
        (if covQ = [] ∨ wHasRdtype = true ∨ covO ≠ [] then NSECVal.INVALID else NSECVal.VALID,
         e1 ++ e2 ++ e3)
      | none => (NSECVal.INVALID, [DNSErr.NoNSECMatchingSnameNoData])
  let cited :=
    (match nsecForQ with | some o => [o] | none => covQ) ++
    (match scan with | some _ => [wName] | none => [])
  let retained := if se.1 = NSECVal.VALID then nsecProject v cited else v.owners
  ⟨se.1, se.2, nsecForQ, covQ, scan, wName, retained⟩

/-! ## NSEC3 evaluators -/

/-- One NSEC3 parameter group (salt, algorithm, iterations); the salt is
abstracted to a number. -/
structure N3Params where
  salt : Nat
  alg : Nat
  iters : Nat
deriving DecidableEq, Repr

/-- The NSEC3 set view collaborator.  params and ownersOf are
nsec3_params; owners lists all rrsets keys; digest is
get_digest_name_for_nsec3 at the evaluation origin (none when the hash
algorithm is unsupported); covering is nsec3_covering_name; flags reads
rrsets[owner].rrset[0].flags; closestEncloser is get_closest_encloser;
validAlgs and invalidAlgs are get_algorithm_support. -/
structure NSEC3Set where
  params : List N3Params
  ownersOf : N3Params → List Name
  owners : List Name
  digest : Name → N3Params → Option Name
  covering : Name → N3Params → List Name
  bitmap : Name → Nat → Bool
  flags : Name → Nat
  closestEncloser : List (Name × List Name)
  validAlgs : List Nat
  invalidAlgs : List Nat
  referral : Bool

def nsec3Project (v : NSEC3Set) (keep : List Name) : List Name :=
  v.owners.filter (fun o => o ∈ keep)

/-- Insert-or-replace on an association list, mirroring assignment into a
dict keyed by digest name. -/
def alInsert (d : List (Name × List Name)) (k : Name) (val : List Name) : List (Name × List Name) :=
  if d.any (fun p => p.1 == k) then d.map (fun p => if p.1 == k then (k, val) else p)
  else d ++ [(k, val)]

/-- The union of the value sets of a digest-keyed dict. -/
def alValues (d : List (Name × List Name)) : List Name :=
  d.foldl (fun a p => a ++ p.2) []

/-- The next closer name: qname truncated to one label below the encloser
(qname.labels with the last len(encloser)+1 labels kept). -/
def n3NextCloser (q enc : Name) : Name := q.drop (q.length - (enc.length + 1))

/-- The digest-map building loops of NSEC3StatusNXDOMAIN.__init__
(status.py 743-770): for each closest-encloser candidate and parameter
group, record the NSEC3 names covering the hashed next closer name and the
hashed wildcard of the encloser. -/
def nsec3NXMaps (v : NSEC3Set) (q : Name) (enclosers : List Name) :
    List (Name × List Name) × List (Name × List Name) :=
  enclosers.foldl (fun acc enc =>
    v.params.foldl (fun acc p =>
      let acc1 :=
        match v.digest (n3NextCloser q enc) p with
        | some d =>
          let cov := v.covering d p
          if cov ≠ [] then (alInsert acc.1 d cov, acc.2) else acc
        | none => acc
      match v.digest ("*" :: enc) p with
      | some dw =>
        let covw := v.covering dw p
        if covw ≠ [] then (acc1.1, alInsert acc1.2 dw covw) else acc1
      | none => acc1) acc) ([], [])

structure NSEC3NXInput where
  rel : List String
  origin : Name
  view : NSEC3Set

def NSEC3NXInput.qname (i : NSEC3NXInput) : Name := i.rel ++ i.origin

structure NSEC3NXResult where
  validationStatus : NSECVal
  errors : List DNSErr
  coveringQname : List (Name × List Name)
  coveringWildcard : List (Name × List Name)
  retained : List Name
deriving DecidableEq, Repr

/-- The status rules of NSEC3StatusNXDOMAIN._set_validation_status
(status.py 805-842), shared with nothing else: semantic errors are emitted
only when a valid algorithm exists, the single UnsupportedNSEC3Algorithm
error is appended when an invalid algorithm exists (deduplicated in the
wildcard branch). -/
def nsec3NXDOMAIN (i : NSEC3NXInput) : NSEC3NXResult :=
  let v := i.view
  let maps := nsec3NXMaps v i.qname (v.closestEncloser.map (·.1))
  let covQ := maps.1
  let covW := maps.2
  let uaErr : List DNSErr :=
    match v.invalidAlgs with
    | a :: _ => [DNSErr.UnsupportedNSEC3Algorithm a]
    | [] => []
  let (st, errs) :=
    if v.closestEncloser = [] then
      (NSECVal.INVALID,
       (if v.validAlgs ≠ [] then [DNSErr.NoClosestEncloserNameError] else []) ++ uaErr)
    else
      let eQ : List DNSErr :=
        if covQ = [] then
          (if v.validAlgs ≠ [] then [DNSErr.NextClosestEncloserNotCoveredNameError] else []) ++ uaErr
        else []
      let eW : List DNSErr :=
        if covW = [] then
          (if v.validAlgs ≠ [] then [DNSErr.WildcardNotCoveredNSEC3] else []) ++
          (if v.invalidAlgs ≠ [] ∧ ¬ (∃ e ∈ eQ, e ∈ uaErr) then uaErr else [])
        else []
      (if covQ = [] ∨ covW = [] then NSECVal.INVALID else NSECVal.VALID, eQ ++ eW)
  let cited := alValues v.closestEncloser ++ alValues covQ ++ alValues covW
  let retained := if st = NSECVal.VALID then nsec3Project v cited else v.owners
  ⟨st, errs, covQ, covW, retained⟩

structure NSEC3WCInput where
  rel : List String
  origin : Name
  wildcardName : Name
  view : NSEC3Set

def NSEC3WCInput.qname (i : NSEC3WCInput) : Name := i.rel ++ i.origin

structure NSEC3WCResult where
  validationStatus : NSECVal
  errors : List DNSErr
  coveringQname : List (Name × List Name)
  coveringWildcard : List (Name × List Name)
  inferredFromWildcard : Bool
  retained : List Name
deriving DecidableEq, Repr

/-- NSEC3StatusWildcard (status.py 937-985): when the view offers no
closest encloser, the parent of the wildcard is installed as a dummy
encloser whose placeholder value names no NSEC3 (it is filtered out of the
retained projection). -/
def nsec3Wildcard (i : NSEC3WCInput) : NSEC3WCResult :=
  let v := i.view
  let inferred := v.closestEncloser = []
  let closest : List (Name × List Name) :=
    if v.closestEncloser = [] then [(i.wildcardName.drop 1, [])] else v.closestEncloser
  let maps := nsec3NXMaps v i.qname (closest.map (·.1))
  let covQ := maps.1
  let covW := maps.2
  let uaErr : List DNSErr :=
    match v.invalidAlgs with
    | a :: _ => [DNSErr.UnsupportedNSEC3Algorithm a]
    | [] => []
  let eQ : List DNSErr :=
    if covQ = [] then
      (if v.validAlgs ≠ [] then [DNSErr.NextClosestEncloserNotCoveredWildcardAnswer] else []) ++ uaErr
    else []
  let eW : List DNSErr := if covW ≠ [] then [DNSErr.WildcardCoveredAnswerNSEC3] else []
  let st := if covQ = [] ∨ covW ≠ [] then NSECVal.INVALID else NSECVal.VALID
  let cited := alValues closest ++ alValues covQ
  let retained := if st = NSECVal.VALID then nsec3Project v cited else v.owners
  ⟨st, eQ ++ eW, covQ, covW, decide inferred, retained⟩

structure NSEC3NAInput where
  rel : List String
  origin : Name
  rdtype : Nat
  view : NSEC3Set

def NSEC3NAInput.qname (i : NSEC3NAInput) : Name := i.rel ++ i.origin

def listAddSet (l : List Name) (x : Name) : List Name :=
  if x ∈ l then l else l ++ [x]

/-- The wildcard-matching loop of NSEC3StatusNoAnswer.__init__
(status.py 1031-1047): the hashed wildcard of each closest-encloser
candidate that is itself an NSEC3 owner, with the rdtype and CNAME bits of
those matches. -/
def nsec3naWildcardMatch (v : NSEC3Set) (rdtype : Nat) : List Name × Bool × Bool :=
  v.params.foldl (fun acc p =>
    v.closestEncloser.foldl (fun acc enc =>
      match v.digest ("*" :: enc.1) p with
      | some d =>
        if (v.ownersOf p).contains d then
          (listAddSet acc.1 d, acc.2.1 || v.bitmap d rdtype, acc.2.2 || v.bitmap d RDTYPE_CNAME)
        else acc
      | none => acc) acc) ([], false, false)

structure NA2 where
  matchQ : List Name
  hasRdtype : Bool
  hasCname : Bool
  hasNS : Bool
  hasDS : Bool
  hasSOA : Bool
  covQ : List (Name × List Name)
deriving DecidableEq, Repr

/-- The branch of the qname loop taken when the qname hash is not an NSEC3
owner (status.py 1059-1070): look for NSEC3 names covering the hashed next
closer name of each closest-encloser candidate. -/
def nsec3naElse (v : NSEC3Set) (q : Name) (acc : NA2) (p : N3Params) : NA2 :=
  v.closestEncloser.foldl (fun acc enc =>
    match v.digest (n3NextCloser q enc.1) p with
    | some d =>
      let cov := v.covering d p
      if cov ≠ [] then { acc with covQ := alInsert acc.covQ d cov } else acc
    | none => acc) acc

/-- The qname loop of NSEC3StatusNoAnswer.__init__ (status.py 1049-1070). -/
def nsec3naQnameLoop (v : NSEC3Set) (q : Name) (rdtype : Nat) : NA2 :=
  v.params.foldl (fun acc p =>
    match v.digest q p with
    | some d =>
      if (v.ownersOf p).contains d then
        { acc with
          matchQ := listAddSet acc.matchQ d,
          hasRdtype := acc.hasRdtype || v.bitmap d rdtype,
          hasCname := acc.hasCname || v.bitmap d RDTYPE_CNAME,
          hasNS := acc.hasNS || v.bitmap d RDTYPE_NS,
          hasDS := acc.hasDS || v.bitmap d RDTYPE_DS,
          hasSOA := acc.hasSOA || v.bitmap d RDTYPE_SOA }
      else nsec3naElse v q acc p
    | none => nsec3naElse v q acc p) ⟨[], false, false, false, false, false, []⟩

structure NSEC3NAResult where
  validationStatus : NSECVal
  errors : List DNSErr
  optOut : Bool
  nsecForQname : List Name
  nsecForWildcard : List Name
  coveringQname : List (Name × List Name)
  retained : List Name
deriving DecidableEq, Repr

/-- NSEC3StatusNoAnswer (status.py 1004-1170).  Two branches of
_set_validation_status crash in the source and are modelled as none: the
wildcard-match branch reads the unbound local next_closest_encloser when a
valid algorithm exists (line 1127, NameError), and its rdtype branch reads
self.wildcard_name.canonicalize() while wildcard_name is always None in
this class (line 1132, AttributeError). -/
def nsec3NoAnswer (i : NSEC3NAInput) : Option NSEC3NAResult :=
  let v := i.view
  let q := i.qname
  let wm := nsec3naWildcardMatch v i.rdtype
  let matchW := wm.1
  let wHasRdtype := wm.2.1
  let l2 := nsec3naQnameLoop v q i.rdtype
  let uaErr : List DNSErr :=
    match v.invalidAlgs with
    | a :: _ => [DNSErr.UnsupportedNSEC3Algorithm a]
    | [] => []
  let stage :=
    if l2.matchQ ≠ [] then
      if i.rdtype = RDTYPE_DS ∨ v.referral = true then
        let e1 : List DNSErr := if l2.hasNS = false then [DNSErr.ReferralWithoutNSBitNSEC3] else []
        let e2 : List DNSErr := if l2.hasDS = true then [DNSErr.ReferralWithDSBitNSEC3] else []
        let e3 : List DNSErr := if l2.hasSOA = true then [DNSErr.ReferralWithSOABitNSEC3] else []
        some (if l2.hasNS = false ∨ l2.hasDS = true ∨ l2.hasSOA = true then NSECVal.INVALID else NSECVal.VALID,
              e1 ++ e2 ++ e3, false)
      else
        let e1 : List DNSErr := if l2.hasRdtype = true then [DNSErr.StypeInBitmapNoDataNSEC3] else []
        let e2 : List DNSErr := if l2.hasCname = true then [DNSErr.StypeInBitmapNoDataNSEC3] else []
        some (if l2.hasRdtype = true ∨ l2.hasCname = true then NSECVal.INVALID else NSECVal.VALID,
              e1 ++ e2, false)
    else if matchW ≠ [] then
      if l2.covQ = [] ∧ v.validAlgs ≠ [] then none
      else if wHasRdtype = true then none
      else if l2.covQ = [] then some (NSECVal.INVALID, uaErr, false)
      else some (NSECVal.VALID, [], false)
    else if i.rdtype = RDTYPE_DS ∧ l2.covQ ≠ [] then
      let optOut := l2.covQ.any (fun p => p.2.any (fun n => v.flags n &&& 1 ≠ 0))
      if optOut then some (NSECVal.VALID, [], true)
      else
        some (NSECVal.INVALID,
              (if v.validAlgs ≠ [] then [DNSErr.NoNSEC3MatchingSnameDSNoData] else []) ++ uaErr,
              false)
    else
      some (NSECVal.INVALID,
            (if v.validAlgs ≠ [] then
              [if i.rdtype = RDTYPE_DS then DNSErr.NoNSEC3MatchingSnameDSNoData
               else DNSErr.NoNSEC3MatchingSnameNoData]
             else []) ++ uaErr,
            false)
  match stage with
  | none => none
  | some t =>
    let cited :=
      alValues v.closestEncloser ++
      (if l2.matchQ ≠ [] then l2.matchQ else alValues l2.covQ) ++ matchW
    let retained := if t.1 = NSECVal.VALID then nsec3Project v cited else v.owners
    some ⟨t.1, t.2.1, t.2.2, l2.matchQ, matchW, l2.covQ, retained⟩

/-! ## DNAME/CNAME-synthesis evaluator (class CNAMEFromDNAMEStatus) -/

inductive DNAMEVal
  | VALID
  | INDETERMINATE
  | INVALID_TARGET
  | INVALID
deriving DecidableEq, Repr

/-- A CNAME rrset as the evaluator reads it: its target and its ttl. -/
structure CNAMERec where
  target : Name
  ttl : Nat
deriving DecidableEq, Repr

structure CNAMEInput where
  synthesized : CNAMERec
  included : Option CNAMERec
deriving DecidableEq, Repr

structure CNAMEResult where
  validationStatus : DNAMEVal
  warnings : List DNSErr
  errors : List DNSErr
deriving DecidableEq, Repr

/-- CNAMEFromDNAMEStatus.__init__ (status.py 1273-1291). -/
def cnameStatus (i : CNAMEInput) : CNAMEResult :=
  match i.included with
  | none => ⟨DNAMEVal.INVALID, [], [DNSErr.DNAMENoCNAME]⟩
  | some c =>
    let se : DNAMEVal × List DNSErr :=
      if c.target ≠ i.synthesized.target then (DNAMEVal.INVALID_TARGET, [DNSErr.DNAMETargetMismatch])
      else (DNAMEVal.VALID, [])
    let warns : List DNSErr :=
      if c.ttl ≠ i.synthesized.ttl then
        (if c.ttl = 0 then [DNSErr.DNAMETTLZero] else [DNSErr.DNAMETTLMismatch])
      else []
    ⟨se.1, warns, se.2⟩

/-! ## Serialization: which keys each serialize method emits.

Loglevels are the numeric logging levels (DEBUG 10, INFO 20, WARNING 30,
ERROR 40).  The evidence blocks whose presence depends on the caller's
rrset_info_serializer closure are abstracted by a boolean input saying
whether they ended up non-empty. -/

def rrsigShowBasic (r : RRSIGState) (lvl : Nat) : Bool :=
  (decide (r.warnings ≠ []) && decide (lvl ≤ 30)) ||
  (decide (r.errors ≠ []) && decide (lvl ≤ 40)) ||
  decide (r.validationStatus ≠ RRSIGVal.VALID ∧
          r.validationStatus ≠ RRSIGVal.INDETERMINATE_NO_DNSKEY ∧
          r.validationStatus ≠ RRSIGVal.INDETERMINATE_UNKNOWN_ALGORITHM)

/-- RRSIGStatus.serialize key list (status.py 216-264). -/
def rrsigSerializeKeys (r : RRSIGState) (lvl : Nat) : List String :=
  let sb := rrsigShowBasic r lvl
  (if lvl ≤ 20 ∨ sb = true then ["description"] else []) ++
  (if lvl ≤ 10 then ["rdata", "meta"] else []) ++
  (if lvl ≤ 20 ∨ sb = true then ["status"] else []) ++
  (if lvl ≤ 10 ∨ sb = true then ["servers"] else []) ++
  (if r.warnings ≠ [] ∧ lvl ≤ 30 then ["warnings"] else []) ++
  (if r.errors ≠ [] ∧ lvl ≤ 40 then ["errors"] else [])

def dsShowBasic (r : DSState) (lvl : Nat) : Bool :=
  (decide (r.warnings ≠ []) && decide (lvl ≤ 30)) ||
  (decide (r.errors ≠ []) && decide (lvl ≤ 40)) ||
  decide (r.validationStatus ≠ DSVal.VALID ∧
          r.validationStatus ≠ DSVal.INDETERMINATE_NO_DNSKEY ∧
          r.validationStatus ≠ DSVal.INDETERMINATE_UNKNOWN_ALGORITHM)

/-- DSStatus.serialize key list (status.py 310-354). -/
def dsSerializeKeys (r : DSState) (lvl : Nat) : List String :=
  let sb := dsShowBasic r lvl
  (if lvl ≤ 20 ∨ sb = true then ["description"] else []) ++
  (if lvl ≤ 10 then ["rdata", "meta"] else []) ++
  (if lvl ≤ 20 ∨ sb = true then ["status"] else []) ++
  (if lvl ≤ 10 ∨ sb = true then ["servers"] else []) ++
  (if r.warnings ≠ [] ∧ lvl ≤ 30 then ["warnings"] else []) ++
  (if r.errors ≠ [] ∧ lvl ≤ 40 then ["errors"] else [])

def denialShowBasic (st : NSECVal) (warnings errors : List DNSErr) (lvl : Nat) : Bool :=
  (decide (warnings ≠ []) && decide (lvl ≤ 30)) ||
  (decide (errors ≠ []) && decide (lvl ≤ 40)) ||
  decide (st ≠ NSECVal.VALID)

/-- The serialize body shared verbatim by the six denial classes
(status.py 425-483, 660-721, 844-935, 1172-1270 and the two subclass
overrides that only edit meta subkeys): the top-level key list, with the
NSEC or NSEC3 evidence block abstracted by whether it ended non-empty. -/
def denialSerializeKeys (evidenceKey : String) (st : NSECVal) (warnings errors : List DNSErr)
    (lvl : Nat) (evidenceShown : Bool) : List String :=
  let sb := denialShowBasic st warnings errors lvl
  (if lvl ≤ 20 ∨ sb = true then ["description"] else []) ++
  (if evidenceShown then [evidenceKey] else []) ++
  (if lvl ≤ 10 then ["meta"] else []) ++
  (if lvl ≤ 20 ∨ sb = true then ["status"] else []) ++
  (if lvl ≤ 10 ∨ sb = true then ["servers"] else []) ++
  (if warnings ≠ [] ∧ lvl ≤ 30 then ["warnings"] else []) ++
  (if errors ≠ [] ∧ lvl ≤ 40 then ["errors"] else [])

/-- NSEC status classes never append a warning, so their serialize reads
warnings = []. -/
def nsecNXSerializeKeys (r : NSECNXResult) (lvl : Nat) (evidenceShown : Bool) : List String :=
  denialSerializeKeys "nsec" r.validationStatus [] r.errors lvl evidenceShown

def nsecWCSerializeKeys (r : NSECWCResult) (lvl : Nat) (evidenceShown : Bool) : List String :=
  denialSerializeKeys "nsec" r.validationStatus [] r.errors lvl evidenceShown

def nsecNASerializeKeys (r : NSECNAResult) (lvl : Nat) (evidenceShown : Bool) : List String :=
  denialSerializeKeys "nsec" r.validationStatus [] r.errors lvl evidenceShown

def nsec3NXSerializeKeys (r : NSEC3NXResult) (lvl : Nat) (evidenceShown : Bool) : List String :=
  denialSerializeKeys "nsec3" r.validationStatus [] r.errors lvl evidenceShown

def nsec3WCSerializeKeys (r : NSEC3WCResult) (lvl : Nat) (evidenceShown : Bool) : List String :=
  denialSerializeKeys "nsec3" r.validationStatus [] r.errors lvl evidenceShown

def nsec3NASerializeKeys (r : NSEC3NAResult) (lvl : Nat) (evidenceShown : Bool) : List String :=
  denialSerializeKeys "nsec3" r.validationStatus [] r.errors lvl evidenceShown

def cnameShowBasic (r : CNAMEResult) (lvl : Nat) : Bool :=
  (decide (r.warnings ≠ []) && decide (lvl ≤ 30)) ||
  (decide (r.errors ≠ []) && decide (lvl ≤ 40)) ||
  decide (r.validationStatus ≠ DNAMEVal.VALID)

/-- CNAMEFromDNAMEStatus.serialize key list (status.py 1296-1334).  Unlike
every other class, the status key is gated on loglevel ≤ INFO or a
non-VALID status, not on show_basic (line 1318). -/
def cnameSerializeKeys (r : CNAMEResult) (lvl : Nat) (dnameShown : Bool) : List String :=
  let sb := cnameShowBasic r lvl
  (if lvl ≤ 20 ∨ sb = true then ["description"] else []) ++
  (if dnameShown then ["dname"] else []) ++
  (if lvl ≤ 10 then ["meta"] else []) ++
  (if lvl ≤ 20 ∨ r.validationStatus ≠ DNAMEVal.VALID then ["status"] else []) ++
  (if lvl ≤ 10 ∨ sb = true then ["servers"] else []) ++
  (if r.warnings ≠ [] ∧ lvl ≤ 30 then ["warnings"] else []) ++
  (if r.errors ≠ [] ∧ lvl ≤ 40 then ["errors"] else [])

/-! ## Concrete inputs used as witnesses and counterexamples -/

/-- An RRSIG evaluation with no DNSKEY and no other defect. -/
def exRRSIGNoKey : RRSIGInput :=
  ⟨["z"], 5, 5, ⟨8, 5, 0, 100, 7, ["z"], 1⟩, none, some ["z"], 50, false, none⟩

/-- An RRSIG evaluation whose only defect is an expired signature. -/
def exRRSIGExpired : RRSIGInput :=
  ⟨["z"], 1, 1, ⟨8, 1, 0, 5, 7, ["z"], 1⟩, some ⟨0, 7⟩, some ["z"], 10, false, some true⟩

/-- An RRSIG evaluation that is expired and whose signer is not the zone. -/
def exRRSIGExpiredWrongSigner : RRSIGInput :=
  ⟨["n"], 1, 1, ⟨8, 1, 0, 5, 7, ["b"], 1⟩, some ⟨0, 7⟩, some ["z"], 10, false, some true⟩

/-- A DS evaluation with a revoked key, differing key tags, and an unknown
digest algorithm. -/
def exDSRevokedUnknownAlg : DSInput := ⟨⟨1, 8, 2⟩, some ⟨128, 2⟩, true, some true⟩

/-- A DS evaluation with a revoked key and differing key tags, digest
algorithm supported. -/
def exDSPreRevoke : DSInput := ⟨⟨1, 8, 2⟩, some ⟨128, 2⟩, false, some true⟩

/-- A DS evaluation with no DNSKEY. -/
def exDSNoKey : DSInput := ⟨⟨1, 8, 2⟩, none, false, none⟩

/-- A view giving a valid NSEC NXDOMAIN proof for foo.example under
example: one NSEC covers the qname, one covers the wildcard, none covers
the origin. -/
def exNSECView : NSECSet :=
  ⟨[["n1"], ["n2"], ["n3"]], fun _ => ["x"], fun _ _ => false,
   fun n => if n = ["foo", "example"] then [["n1"]]
            else if n = ["*", "example"] then [["n2"]] else [],
   false⟩

def exNSECNX : NSECNXInput := ⟨["foo"], ["example"], exNSECView⟩

/-- The failing input of the NSEC3 NODATA wildcard branch: a hashed
wildcard of the closest encloser is an NSEC3 owner, the qname hash is not,
nothing covers the hashed next closer name, and a valid algorithm exists,
so the source reaches the unbound next_closest_encloser reference. -/
def exNSEC3CrashView : NSEC3Set :=
  ⟨[⟨0, 1, 0⟩], fun _ => [["W"]], [["W"]],
   fun n _ => if n = ["*", "ex"] then some ["W"]
              else if n = ["a", "ex"] then some ["Q"] else none,
   fun _ _ => [], fun _ _ => false, fun _ => 0,
   [(["ex"], [["E"]])], [1], [], false⟩

def exNSEC3Crash : NSEC3NAInput := ⟨["a"], ["ex"], 1, exNSEC3CrashView⟩

/-- An NSEC3 NODATA-for-DS input where no NSEC3 matches the qname hash or
a wildcard hash, and the NSEC3 covering the next-closer hash has the
opt-out flag bit set. -/
def exNSEC3OptOutView : NSEC3Set :=
  ⟨[⟨0, 1, 0⟩], fun _ => [["W"]], [["W"], ["C"]],
   fun n _ => if n = ["a", "ex"] then some ["Q"]
              else if n = ["*", "ex"] then some ["NOPE"] else none,
   fun n _ => if n = ["Q"] then [["C"]] else [],
   fun _ _ => false, fun n => if n = ["C"] then 1 else 0,
   [(["ex"], [["E"]])], [1], [], false⟩

def exNSEC3OptOut : NSEC3NAInput := ⟨["a"], ["ex"], RDTYPE_DS, exNSEC3OptOutView⟩

/-- A CNAME-from-DNAME evaluation whose included CNAME matches the
synthesized target but has a different non-zero TTL: a warning with a
VALID status. -/
def exCNAMETTLMismatch : CNAMEInput := ⟨⟨["t"], 2⟩, some ⟨["t"], 1⟩⟩

/-- An NSEC3 view reporting only an unsupported algorithm: all digests are
none and there is no closest encloser. -/
def exNSEC3UnsuppView : NSEC3Set :=
  ⟨[⟨0, 99, 0⟩], fun _ => [["W"]], [["W"]], fun _ _ => none,
   fun _ _ => [], fun _ _ => false, fun _ => 0, [], [], [99], false⟩

def exNSEC3Unsupp : NSEC3NXInput := ⟨["a"], ["ex"], exNSEC3UnsuppView⟩

/-! ## Helper lemmas: RRSIG pipeline -/

/-- The statuses that only error-appending checks can introduce. -/
def rrsigHard (v : RRSIGVal) : Prop :=
  v = RRSIGVal.EXPIRED ∨ v = RRSIGVal.PREMATURE ∨ v = RRSIGVal.INVALID_SIG ∨ v = RRSIGVal.INVALID

instance (v : RRSIGVal) : Decidable (rrsigHard v) := by unfold rrsigHard; infer_instance

def dsHard (v : DSVal) : Prop := v = DSVal.INVALID_DIGEST ∨ v = DSVal.INVALID

instance (v : DSVal) : Decidable (dsHard v) := by unfold dsHard; infer_instance

theorem rrsigKeying_sigValid (i : RRSIGInput) (s : RRSIGState) :
    (rrsigKeying i s).signatureValid = s.signatureValid := by
  cases hd : i.dnskey <;> simp only [rrsigKeying, hd] <;> split_ifs <;> rfl

theorem rrsigTTLCheck_sigValid (i : RRSIGInput) (s : RRSIGState) :
    (rrsigTTLCheck i s).signatureValid = s.signatureValid := by
  simp only [rrsigTTLCheck]; split_ifs <;> rfl

theorem rrsigSigner_sigValid (i : RRSIGInput) (s : RRSIGState) :
    (rrsigSigner i s).signatureValid = s.signatureValid := by
  simp only [rrsigSigner]; split_ifs <;> rfl

theorem rrsigRevoke_sigValid (i : RRSIGInput) (s : RRSIGState) :
    (rrsigRevoke i s).signatureValid = s.signatureValid := by
  cases hd : i.dnskey <;> simp only [rrsigRevoke, hd] <;> split_ifs <;> rfl

theorem rrsigWindow_sigValid (i : RRSIGInput) (s : RRSIGState) :
    (rrsigWindow i s).signatureValid = s.signatureValid := by
  simp only [rrsigWindow]; split_ifs <;> rfl

theorem rrsigKeying_id (i : RRSIGInput) (s : RRSIGState)
    (h1 : s.signatureValid ≠ none) (h2 : i.algorithmUnknown = false) :
    rrsigKeying i s = s := by
  simp only [rrsigKeying, h1, h2]
  simp

theorem rrsigTTLCheck_status (i : RRSIGInput) (s : RRSIGState) :
    (rrsigTTLCheck i s).validationStatus = s.validationStatus := by
  simp only [rrsigTTLCheck]; split_ifs <;> rfl

theorem rrsigTTLCheck_errors_mem (i : RRSIGInput) (s : RRSIGState) (e : DNSErr)
    (h : e ∈ s.errors) : e ∈ (rrsigTTLCheck i s).errors := by
  simp only [rrsigTTLCheck]; split_ifs <;> simp_all

theorem rrsigSigner_set (i : RRSIGInput) (s : RRSIGState)
    (h : rrsigSignerMismatch i = true) (hv : s.validationStatus = RRSIGVal.VALID) :
    (rrsigSigner i s).validationStatus = RRSIGVal.INVALID ∧
    DNSErr.SignerNotZone ∈ (rrsigSigner i s).errors := by
  simp [rrsigSigner, rrsigSetIfValid, h, hv]

theorem rrsigRevoke_id (i : RRSIGInput) (s : RRSIGState) (k : DNSKEYRec)
    (hk : i.dnskey = some k) (hf : k.flags &&& DNSKEY_FLAG_REVOKE = 0) :
    rrsigRevoke i s = s := by
  simp [rrsigRevoke, hk, hf]

theorem rrsigWindow_status_invalid (i : RRSIGInput) (s : RRSIGState)
    (h : s.validationStatus = RRSIGVal.INVALID) :
    (rrsigWindow i s).validationStatus = RRSIGVal.INVALID := by
  simp only [rrsigWindow, rrsigSetIfValid]; split_ifs <;> simp_all

theorem rrsigWindow_errors_mem (i : RRSIGInput) (s : RRSIGState) (e : DNSErr)
    (h : e ∈ s.errors) : e ∈ (rrsigWindow i s).errors := by
  simp only [rrsigWindow]; split_ifs <;> simp_all

theorem rrsigWindow_expired_mem (i : RRSIGInput) (s : RRSIGState)
    (h : i.referenceTS ≥ i.rrsig.expiration) :
    DNSErr.ExpirationInPast ∈ (rrsigWindow i s).errors := by
  simp only [rrsigWindow]; split_ifs <;> simp_all

theorem rrsigCrypto_some_of_key (i : RRSIGInput) (s : RRSIGState) (k : DNSKEYRec)
    (hk : i.dnskey = some k) :
    ∃ t, rrsigCrypto i s = some t ∧
      (s.validationStatus = RRSIGVal.INVALID → t.validationStatus = RRSIGVal.INVALID) ∧
      (∀ e ∈ s.errors, e ∈ t.errors) := by
  simp only [rrsigCrypto, hk]
  split_ifs with h1 h2
  · exact ⟨_, rfl, fun h => by simp [rrsigSetIfValid, h], fun e he => by simp [he]⟩
  · exact ⟨s, rfl, fun h => h, fun e he => he⟩
  · exact ⟨s, rfl, fun h => h, fun e he => he⟩

theorem rrsigCrypto_some_of_not_false (i : RRSIGInput) (s : RRSIGState)
    (h : s.signatureValid ≠ some false) : rrsigCrypto i s = some s := by
  simp [rrsigCrypto, h]

/-! ## Helper lemmas: DS pipeline -/

theorem dsKeying_id (i : DSInput) (s : DSState)
    (h1 : s.digestValid ≠ none) (h2 : i.digestAlgorithmUnknown = false) :
    dsKeying i s = s := by
  simp only [dsKeying, h1, h2]
  simp

theorem dsKeying_digestValid (i : DSInput) (s : DSState) :
    (dsKeying i s).digestValid = s.digestValid := by
  cases hd : i.dnskey <;> simp only [dsKeying, hd] <;> split_ifs <;> rfl

theorem dsRevoke_digestValid (i : DSInput) (s : DSState) :
    (dsRevoke i s).digestValid = s.digestValid := by
  cases hd : i.dnskey <;> simp only [dsRevoke, hd] <;> split_ifs <;> rfl

theorem dsRevoke_preRevoke (i : DSInput) (s : DSState) (k : DNSKEYRec)
    (hk : i.dnskey = some k) (hrev : k.flags &&& DNSKEY_FLAG_REVOKE ≠ 0)
    (hne : k.keyTag ≠ i.ds.keyTag) :
    dsRevoke i s = { s with validationStatus := dsSetIfValid s.validationStatus DSVal.INDETERMINATE_MATCH_PRE_REVOKE } := by
  simp [dsRevoke, hk, hrev, hne]

theorem dsRevoke_revoked (i : DSInput) (s : DSState) (k : DNSKEYRec)
    (hk : i.dnskey = some k) (hrev : k.flags &&& DNSKEY_FLAG_REVOKE ≠ 0)
    (heq : k.keyTag = i.ds.keyTag) :
    dsRevoke i s = { s with errors := s.errors ++ [DNSErr.DNSKEYRevokedDS],
                            validationStatus := dsSetIfValid s.validationStatus DSVal.INVALID } := by
  simp [dsRevoke, hk, hrev, heq]

theorem dsDigest_some_of_ne (i : DSInput) (s : DSState) (k : DNSKEYRec)
    (hk : i.dnskey = some k) (hne : k.keyTag ≠ i.ds.keyTag) :
    dsDigest i s = some s := by
  simp only [dsDigest, hk]
  split_ifs <;> simp_all

theorem dsDigest_some_of_key (i : DSInput) (s : DSState) (k : DNSKEYRec)
    (hk : i.dnskey = some k) :
    ∃ t, dsDigest i s = some t ∧
      (s.validationStatus = DSVal.INVALID → t.validationStatus = DSVal.INVALID) ∧
      (∀ e ∈ s.errors, e ∈ t.errors) := by
  simp only [dsDigest, hk]
  split_ifs with h1 h2
  · exact ⟨_, rfl, fun h => by simp [dsSetIfValid, h], fun e he => by simp [he]⟩
  · exact ⟨s, rfl, fun h => h, fun e he => he⟩
  · exact ⟨s, rfl, fun h => h, fun e he => he⟩

/-! ## Claim theorems C2, C5, C10 -/

/-- C2: for every RRSIG evaluation with a supplied dnskey, a supported and
known algorithm, revoke bit clear, signer different from the known zone
name, and reference time at or past expiration, the final status is
INVALID (the signer-scope downgrade is not overwritten by the later window
check) and the errors contain both SignerNotZone and ExpirationInPast. -/
theorem rrsig_expired_and_wrong_signer_invalid (i : RRSIGInput) (k : DNSKEYRec) (b : Bool)
    (z : Name) (hk : i.dnskey = some k) (hv : i.cryptoVerdict = some b)
    (ha : i.algorithmUnknown = false) (hrev : k.flags &&& DNSKEY_FLAG_REVOKE = 0)
    (hz : i.zoneName = some z) (hs : i.rrsig.signer ≠ z)
    (hexp : i.referenceTS ≥ i.rrsig.expiration) :
    ∃ r, rrsigStatus i = some r ∧ r.validationStatus = RRSIGVal.INVALID ∧
      DNSErr.SignerNotZone ∈ r.errors ∧ DNSErr.ExpirationInPast ∈ r.errors := by
  have hsv : rrsigSignatureValid i = some b := by unfold rrsigSignatureValid; rw [hk, hv]
  have h1 : rrsigKeying i ⟨RRSIGVal.VALID, [], [], rrsigSignatureValid i⟩ =
      ⟨RRSIGVal.VALID, [], [], rrsigSignatureValid i⟩ :=
    rrsigKeying_id _ _ (by simp [hsv]) ha
  show ∃ r, rrsigCrypto i (rrsigWindow i (rrsigRevoke i (rrsigSigner i (rrsigTTLCheck i
      (rrsigKeying i ⟨RRSIGVal.VALID, [], [], rrsigSignatureValid i⟩))))) = some r ∧ _
  rw [h1]
  have hmm : rrsigSignerMismatch i = true := by
    unfold rrsigSignerMismatch; rw [hz]; simpa using hs
  set s2 := rrsigTTLCheck i ⟨RRSIGVal.VALID, [], [], rrsigSignatureValid i⟩ with hs2
  have h2v : s2.validationStatus = RRSIGVal.VALID := by
    rw [hs2, rrsigTTLCheck_status]
  set s3 := rrsigSigner i s2 with hs3
  have h3 := rrsigSigner_set i s2 hmm h2v
  rw [← hs3] at h3
  have h4 : rrsigRevoke i s3 = s3 := rrsigRevoke_id i s3 k hk hrev
  rw [h4]
  set s5 := rrsigWindow i s3 with hs5
  have h5v : s5.validationStatus = RRSIGVal.INVALID := by
    rw [hs5]; exact rrsigWindow_status_invalid i s3 h3.1
  have h5s : DNSErr.SignerNotZone ∈ s5.errors := by
    rw [hs5]; exact rrsigWindow_errors_mem i s3 _ h3.2
  have h5e : DNSErr.ExpirationInPast ∈ s5.errors := by
    rw [hs5]; exact rrsigWindow_expired_mem i s3 hexp
  obtain ⟨t, ht, htv, hte⟩ := rrsigCrypto_some_of_key i s5 k hk
  exact ⟨t, ht, htv h5v, hte _ h5s, hte _ h5e⟩

/-- C2 witness: a concrete expired RRSIG with a wrong signer. -/
theorem rrsig_expired_and_wrong_signer_invalid_witness :
    ∃ r, rrsigStatus exRRSIGExpiredWrongSigner = some r ∧
      r.validationStatus = RRSIGVal.INVALID ∧
      DNSErr.SignerNotZone ∈ r.errors ∧ DNSErr.ExpirationInPast ∈ r.errors :=
  rrsig_expired_and_wrong_signer_invalid exRRSIGExpiredWrongSigner ⟨0, 7⟩ true ["z"]
    rfl rfl rfl (by decide) rfl (by decide) (by decide)

/-- C5 counterexample: a DS evaluation with a revoked dnskey and differing
key tags does not get INDETERMINATE_MATCH_PRE_REVOKE when the digest
algorithm is unknown; the earlier keying downgrade wins. -/
theorem ds_revoked_pre_revoke_counterexample :
    exDSRevokedUnknownAlg.dnskey = some ⟨128, 2⟩ ∧
    (128 &&& DNSKEY_FLAG_REVOKE ≠ 0) ∧
    (2 : Nat) ≠ exDSRevokedUnknownAlg.ds.keyTag ∧
    Option.map (fun r => r.validationStatus) (dsStatus exDSRevokedUnknownAlg) =
      some DSVal.INDETERMINATE_UNKNOWN_ALGORITHM ∧
    Option.map (fun r => r.validationStatus) (dsStatus exDSRevokedUnknownAlg) ≠
      some DSVal.INDETERMINATE_MATCH_PRE_REVOKE := by decide

/-- C5 amended: for every DS evaluation with a supplied dnskey whose revoke
bit is set, provided the digest algorithm is known and supported (so the
status is still VALID when the revocation check runs): differing key tags
give INDETERMINATE_MATCH_PRE_REVOKE with no errors, equal key tags give
INVALID with DNSKEYRevokedDS recorded. -/
theorem ds_revoked_key_handling (i : DSInput) (k : DNSKEYRec) (b : Bool)
    (hk : i.dnskey = some k) (hrev : k.flags &&& DNSKEY_FLAG_REVOKE ≠ 0)
    (hu : i.digestAlgorithmUnknown = false) (hv : i.cryptoVerdict = some b) :
    (k.keyTag ≠ i.ds.keyTag →
      ∃ r, dsStatus i = some r ∧
        r.validationStatus = DSVal.INDETERMINATE_MATCH_PRE_REVOKE ∧ r.errors = []) ∧
    (k.keyTag = i.ds.keyTag →
      ∃ r, dsStatus i = some r ∧ r.validationStatus = DSVal.INVALID ∧
        DNSErr.DNSKEYRevokedDS ∈ r.errors) := by
  have hdv : dsDigestValid i = some b := by unfold dsDigestValid; rw [hk, hv]
  have h1 : dsKeying i ⟨DSVal.VALID, [], [], dsDigestValid i⟩ =
      ⟨DSVal.VALID, [], [], dsDigestValid i⟩ :=
    dsKeying_id _ _ (by simp [hdv]) hu
  constructor
  · intro hne
    show ∃ r, dsDigest i (dsRevoke i (dsKeying i ⟨DSVal.VALID, [], [], dsDigestValid i⟩)) = some r ∧ _
    rw [h1, dsRevoke_preRevoke i _ k hk hrev hne,
      dsDigest_some_of_ne i _ k hk hne]
    exact ⟨_, rfl, by simp [dsSetIfValid], rfl⟩
  · intro heq
    show ∃ r, dsDigest i (dsRevoke i (dsKeying i ⟨DSVal.VALID, [], [], dsDigestValid i⟩)) = some r ∧ _
    rw [h1, dsRevoke_revoked i _ k hk hrev heq]
    obtain ⟨t, ht, htv, hte⟩ := dsDigest_some_of_key i _ k hk
    refine ⟨t, ht, htv (by simp [dsSetIfValid]), hte _ (by simp)⟩

/-- C5 witness: the pre-revoke case at a concrete input with a supported
digest algorithm. -/
theorem ds_revoked_key_handling_witness :
    ∃ r, dsStatus exDSPreRevoke = some r ∧
      r.validationStatus = DSVal.INDETERMINATE_MATCH_PRE_REVOKE ∧ r.errors = [] :=
  (ds_revoked_key_handling exDSPreRevoke ⟨128, 2⟩ true rfl (by decide) rfl rfl).1 (by decide)

/-- C10: with no dnskey the cryptographic verdict is none, never false, so
the final verdict check of RRSIGStatus (and DSStatus), which dereferences
the dnskey without a None guard, is unreachable and construction
completes. -/
theorem no_dnskey_crypto_check_unreachable :
    (∀ i : RRSIGInput, i.dnskey = none →
      rrsigSignatureValid i = none ∧ (rrsigStatus i).isSome = true) ∧
    (∀ i : DSInput, i.dnskey = none →
      dsDigestValid i = none ∧ (dsStatus i).isSome = true) := by
  constructor
  · intro i hk
    have hsv : rrsigSignatureValid i = none := by unfold rrsigSignatureValid; rw [hk]
    refine ⟨hsv, ?_⟩
    show (rrsigCrypto i (rrsigWindow i (rrsigRevoke i (rrsigSigner i (rrsigTTLCheck i
      (rrsigKeying i ⟨RRSIGVal.VALID, [], [], rrsigSignatureValid i⟩)))))).isSome = true
    have hpre : (rrsigWindow i (rrsigRevoke i (rrsigSigner i (rrsigTTLCheck i
        (rrsigKeying i ⟨RRSIGVal.VALID, [], [], rrsigSignatureValid i⟩))))).signatureValid = none := by
      rw [rrsigWindow_sigValid, rrsigRevoke_sigValid, rrsigSigner_sigValid,
        rrsigTTLCheck_sigValid, rrsigKeying_sigValid]
      exact hsv
    rw [rrsigCrypto_some_of_not_false _ _ (by rw [hpre]; intro h; cases h)]
    rfl
  · intro i hk
    have hdv : dsDigestValid i = none := by unfold dsDigestValid; rw [hk]
    refine ⟨hdv, ?_⟩
    show (dsDigest i (dsRevoke i (dsKeying i ⟨DSVal.VALID, [], [], dsDigestValid i⟩))).isSome = true
    have hpre : (dsRevoke i (dsKeying i ⟨DSVal.VALID, [], [], dsDigestValid i⟩)).digestValid = none := by
      rw [dsRevoke_digestValid, dsKeying_digestValid]
      exact hdv
    have : dsDigest i (dsRevoke i (dsKeying i ⟨DSVal.VALID, [], [], dsDigestValid i⟩)) =
        some (dsRevoke i (dsKeying i ⟨DSVal.VALID, [], [], dsDigestValid i⟩)) := by
      simp [dsDigest, hpre]
    rw [this]
    rfl

/-- C10 witness: the RRSIG case at a concrete keyless input. -/
theorem no_dnskey_crypto_check_unreachable_witness :
    rrsigSignatureValid exRRSIGNoKey = none ∧ (rrsigStatus exRRSIGNoKey).isSome = true :=
  no_dnskey_crypto_check_unreachable.1 exRRSIGNoKey rfl

/-! ## Helper lemmas: NSEC wildcard scans -/

theorem nsecWildScan_some_covering (v : NSECSet) (o : Name) :
    ∀ rel w, nsecWildScan v o rel = some w → v.covering w ≠ [] := by
  intro rel
  induction rel with
  | nil => intro w h; cases h
  | cons a rest ih =>
    intro w h
    by_cases hc : v.covering ("*" :: (rest ++ o)) ≠ []
    · rw [nsecWildScan, if_pos hc] at h
      cases h
      exact hc
    · rw [nsecWildScan, if_neg hc] at h
      exact ih w h

theorem nsecWildScan_isSome_iff (v : NSECSet) (o : Name) (rel : List String) :
    (nsecWildScan v o rel).isSome = true ↔
    ∃ kk, kk < rel.length ∧ v.covering ("*" :: (List.drop (kk+1) rel ++ o)) ≠ [] := by
  induction rel with
  | nil => simp [nsecWildScan]
  | cons a rest ih =>
    by_cases hc : v.covering ("*" :: (rest ++ o)) ≠ []
    · rw [nsecWildScan, if_pos hc]
      simp only [Option.isSome_some, true_iff]
      exact ⟨0, by simp, by simpa using hc⟩
    · rw [nsecWildScan, if_neg hc]
      rw [ih]
      constructor
      · rintro ⟨kk, hk, hcov⟩
        refine ⟨kk + 1, by simpa using Nat.succ_lt_succ hk, by simpa using hcov⟩
      · rintro ⟨kk, hk, hcov⟩
        cases kk with
        | zero => exact absurd (by simpa using hcov) hc
        | succ j =>
          refine ⟨j, ?_, by simpa using hcov⟩
          simpa using Nat.lt_of_succ_lt_succ hk

/-! ## Claim theorem C6 -/

/-- C6: NSECStatusNXDOMAIN is VALID exactly when some NSEC covers the
qname, some NSEC covers the wildcard of a proper ancestor of qname at or
below the origin, and no NSEC covers the origin; each failing condition
records its error, and all failing conditions are recorded together. -/
theorem nsec_nxdomain_rules (i : NSECNXInput) :
    ((nsecNXDOMAIN i).validationStatus = NSECVal.VALID ↔
      (i.view.covering i.qname ≠ [] ∧
       (∃ kk, kk < i.rel.length ∧ i.view.covering ("*" :: (List.drop (kk+1) i.rel ++ i.origin)) ≠ []) ∧
       i.view.covering i.origin = [])) ∧
    (DNSErr.SnameNotCoveredNameError ∈ (nsecNXDOMAIN i).errors ↔ i.view.covering i.qname = []) ∧
    (DNSErr.WildcardNotCoveredNSEC ∈ (nsecNXDOMAIN i).errors ↔
      ¬ ∃ kk, kk < i.rel.length ∧ i.view.covering ("*" :: (List.drop (kk+1) i.rel ++ i.origin)) ≠ []) ∧
    (DNSErr.LastNSECNextNotZone ∈ (nsecNXDOMAIN i).errors ↔ i.view.covering i.origin ≠ []) := by
  rcases hsc : nsecWildScan i.view i.origin i.rel with _ | w
  · have hex : ¬ ∃ kk, kk < i.rel.length ∧
        i.view.covering ("*" :: (List.drop (kk+1) i.rel ++ i.origin)) ≠ [] := by
      rw [← nsecWildScan_isSome_iff]
      simp [hsc]
    simp only [nsecNXDOMAIN, hsc]
    split_ifs <;> simp_all
  · have hcov : i.view.covering w ≠ [] := nsecWildScan_some_covering _ _ _ _ hsc
    have hex : ∃ kk, kk < i.rel.length ∧
        i.view.covering ("*" :: (List.drop (kk+1) i.rel ++ i.origin)) ≠ [] := by
      rw [← nsecWildScan_isSome_iff]
      simp [hsc]
    simp only [nsecNXDOMAIN, hsc]
    split_ifs <;> simp_all

/-! ## Helper lemmas: status and error-list parity per evaluator -/

theorem nsecNXDOMAIN_parity (i : NSECNXInput) :
    ((nsecNXDOMAIN i).validationStatus = NSECVal.VALID ↔ (nsecNXDOMAIN i).errors = []) := by
  rcases hsc : nsecWildScan i.view i.origin i.rel with _ | w
  · simp only [nsecNXDOMAIN, hsc]
    split_ifs <;> simp_all
  · have hcov : i.view.covering w ≠ [] := nsecWildScan_some_covering _ _ _ _ hsc
    simp only [nsecNXDOMAIN, hsc]
    split_ifs <;> simp_all

theorem nsecWildcard_parity (i : NSECWCInput) :
    ((nsecWildcard i).validationStatus = NSECVal.VALID ↔ (nsecWildcard i).errors = []) := by
  simp only [nsecWildcard]
  split_ifs <;> simp_all

theorem nsecNoAnswer_parity (i : NSECNAInput) :
    ((nsecNoAnswer i).validationStatus = NSECVal.VALID ↔ (nsecNoAnswer i).errors = []) := by
  simp only [nsecNoAnswer]
  rcases hm : nsecNAMatch i.view i.qname with _ | o <;>
    rcases hs : nsecNAWildScan i.view i.origin i.rel with _ | w <;>
      simp only [hm, hs] <;> (try split_ifs) <;> simp_all

theorem cname_parity (i : CNAMEInput) :
    ((cnameStatus i).validationStatus = DNAMEVal.VALID ↔ (cnameStatus i).errors = []) := by
  rcases hc : i.included with _ | c <;> simp only [cnameStatus, hc] <;> (try split_ifs) <;> simp_all

theorem rrsigKeying_hard_inv (i : RRSIGInput) (s : RRSIGState)
    (h : rrsigHard s.validationStatus → s.errors ≠ []) :
    rrsigHard (rrsigKeying i s).validationStatus → (rrsigKeying i s).errors ≠ [] := by
  cases hd : i.dnskey <;> simp only [rrsigKeying, hd, rrsigSetIfValid] <;>
    split_ifs <;> simp_all [rrsigHard]

theorem rrsigTTLCheck_hard_inv (i : RRSIGInput) (s : RRSIGState)
    (h : rrsigHard s.validationStatus → s.errors ≠ []) :
    rrsigHard (rrsigTTLCheck i s).validationStatus → (rrsigTTLCheck i s).errors ≠ [] := by
  simp only [rrsigTTLCheck]
  split_ifs <;> simp_all [rrsigHard]

theorem rrsigSigner_hard_inv (i : RRSIGInput) (s : RRSIGState)
    (h : rrsigHard s.validationStatus → s.errors ≠ []) :
    rrsigHard (rrsigSigner i s).validationStatus → (rrsigSigner i s).errors ≠ [] := by
  simp only [rrsigSigner, rrsigSetIfValid]
  split_ifs <;> simp_all [rrsigHard]

theorem rrsigRevoke_hard_inv (i : RRSIGInput) (s : RRSIGState)
    (h : rrsigHard s.validationStatus → s.errors ≠ []) :
    rrsigHard (rrsigRevoke i s).validationStatus → (rrsigRevoke i s).errors ≠ [] := by
  cases hd : i.dnskey <;> simp only [rrsigRevoke, hd, rrsigSetIfValid] <;>
    (try split_ifs) <;> simp_all [rrsigHard]

theorem rrsigWindow_hard_inv (i : RRSIGInput) (s : RRSIGState)
    (h : rrsigHard s.validationStatus → s.errors ≠ []) :
    rrsigHard (rrsigWindow i s).validationStatus → (rrsigWindow i s).errors ≠ [] := by
  simp only [rrsigWindow, rrsigSetIfValid]
  split_ifs <;> simp_all [rrsigHard]

theorem rrsigCrypto_hard_inv (i : RRSIGInput) (s t : RRSIGState)
    (ht : rrsigCrypto i s = some t)
    (h : rrsigHard s.validationStatus → s.errors ≠ []) :
    rrsigHard t.validationStatus → t.errors ≠ [] := by
  cases hd : i.dnskey <;> simp only [rrsigCrypto, hd, rrsigSetIfValid] at ht <;>
    split_ifs at ht <;> simp_all [rrsigHard] <;> subst ht <;> simp_all

theorem rrsigStatus_hard_errors (i : RRSIGInput) (r : RRSIGState)
    (h : rrsigStatus i = some r) (hh : rrsigHard r.validationStatus) : r.errors ≠ [] := by
  have h0 : rrsigHard (⟨RRSIGVal.VALID, [], [], rrsigSignatureValid i⟩ : RRSIGState).validationStatus →
      (⟨RRSIGVal.VALID, [], [], rrsigSignatureValid i⟩ : RRSIGState).errors ≠ [] := by
    intro hhard
    simp [rrsigHard] at hhard
  have h1 := rrsigKeying_hard_inv i _ h0
  have h2 := rrsigTTLCheck_hard_inv i _ h1
  have h3 := rrsigSigner_hard_inv i _ h2
  have h4 := rrsigRevoke_hard_inv i _ h3
  have h5 := rrsigWindow_hard_inv i _ h4
  have hc : rrsigCrypto i (rrsigWindow i (rrsigRevoke i (rrsigSigner i (rrsigTTLCheck i
      (rrsigKeying i ⟨RRSIGVal.VALID, [], [], rrsigSignatureValid i⟩))))) = some r := h
  exact rrsigCrypto_hard_inv i _ r hc h5 hh

theorem dsKeying_hard_inv (i : DSInput) (s : DSState)
    (h : dsHard s.validationStatus → s.errors ≠ []) :
    dsHard (dsKeying i s).validationStatus → (dsKeying i s).errors ≠ [] := by
  cases hd : i.dnskey <;> simp only [dsKeying, hd, dsSetIfValid] <;>
    split_ifs <;> simp_all [dsHard]

theorem dsRevoke_hard_inv (i : DSInput) (s : DSState)
    (h : dsHard s.validationStatus → s.errors ≠ []) :
    dsHard (dsRevoke i s).validationStatus → (dsRevoke i s).errors ≠ [] := by
  cases hd : i.dnskey <;> simp only [dsRevoke, hd, dsSetIfValid] <;>
    (try split_ifs) <;> simp_all [dsHard]

theorem dsDigest_hard_inv (i : DSInput) (s t : DSState)
    (ht : dsDigest i s = some t)
    (h : dsHard s.validationStatus → s.errors ≠ []) :
    dsHard t.validationStatus → t.errors ≠ [] := by
  cases hd : i.dnskey <;> simp only [dsDigest, hd, dsSetIfValid] at ht <;>
    split_ifs at ht <;> simp_all [dsHard] <;> subst ht <;> simp_all

theorem dsStatus_hard_errors (i : DSInput) (r : DSState)
    (h : dsStatus i = some r) (hh : dsHard r.validationStatus) : r.errors ≠ [] := by
  have h0 : dsHard (⟨DSVal.VALID, [], [], dsDigestValid i⟩ : DSState).validationStatus →
      (⟨DSVal.VALID, [], [], dsDigestValid i⟩ : DSState).errors ≠ [] := by
    intro hhard
    simp [dsHard] at hhard
  have h1 := dsKeying_hard_inv i _ h0
  have h2 := dsRevoke_hard_inv i _ h1
  have hc : dsDigest i (dsRevoke i (dsKeying i ⟨DSVal.VALID, [], [], dsDigestValid i⟩)) = some r := h
  exact dsDigest_hard_inv i _ r hc h2 hh

theorem nsec3NXDOMAIN_parity (i : NSEC3NXInput) :
    ((nsec3NXDOMAIN i).validationStatus = NSECVal.VALID → (nsec3NXDOMAIN i).errors = []) ∧
    ((nsec3NXDOMAIN i).validationStatus ≠ NSECVal.VALID →
      (i.view.validAlgs ≠ [] ∨ i.view.invalidAlgs ≠ []) → (nsec3NXDOMAIN i).errors ≠ []) := by
  rcases hia : i.view.invalidAlgs with _ | ⟨a, rest⟩ <;>
    simp only [nsec3NXDOMAIN, hia] <;> (try split_ifs) <;> simp_all

theorem nsec3Wildcard_parity (i : NSEC3WCInput) :
    ((nsec3Wildcard i).validationStatus = NSECVal.VALID → (nsec3Wildcard i).errors = []) ∧
    ((nsec3Wildcard i).validationStatus ≠ NSECVal.VALID →
      (i.view.validAlgs ≠ [] ∨ i.view.invalidAlgs ≠ []) → (nsec3Wildcard i).errors ≠ []) := by
  rcases hia : i.view.invalidAlgs with _ | ⟨a, rest⟩ <;>
    simp only [nsec3Wildcard, hia] <;> (try split_ifs) <;> simp_all

theorem nsec3NoAnswer_parity (i : NSEC3NAInput) (r : NSEC3NAResult)
    (h : nsec3NoAnswer i = some r) :
    (r.validationStatus = NSECVal.VALID → r.errors = []) ∧
    (r.validationStatus ≠ NSECVal.VALID →
      (i.view.validAlgs ≠ [] ∨ i.view.invalidAlgs ≠ []) → r.errors ≠ []) := by
  rcases hia : i.view.invalidAlgs with _ | ⟨a, rest⟩ <;>
    simp only [nsec3NoAnswer, hia] at h <;> split_ifs at h <;> simp_all <;>
    (try subst h) <;> simp_all

/-! ## Claim theorem C1 (amended) with counterexample -/

/-- C1 counterexample: an RRSIG evaluation with no DNSKEY and no other
defect has the non-VALID status INDETERMINATE_NO_DNSKEY and an empty
errors list, so non-VALID does not imply a non-empty errors list. -/
theorem error_list_parity_counterexample :
    rrsigStatus exRRSIGNoKey = some ⟨RRSIGVal.INDETERMINATE_NO_DNSKEY, [], [], none⟩ ∧
    RRSIGVal.INDETERMINATE_NO_DNSKEY ≠ RRSIGVal.VALID := by decide

/-- C1 amended: error-list parity as it actually holds.  For the NSEC
evaluators and the DNAME/CNAME evaluator the parity is exact: the status
is VALID exactly when the errors list is empty.  For the NSEC3 evaluators,
VALID still forces an empty errors list, and a non-VALID status forces a
non-empty errors list provided the view reports at least one valid or
invalid algorithm (with an empty algorithm report a non-VALID NSEC3 status
can carry no error).  For RRSIGStatus and DSStatus the hard failure
statuses (EXPIRED, PREMATURE, INVALID_SIG, INVALID, INVALID_DIGEST) always
carry an error, while the INDETERMINATE statuses may carry none and a
VALID status may carry TTL errors, so only the hard-status direction
holds. -/
theorem error_list_parity_amended :
    (∀ i : NSECNXInput,
      ((nsecNXDOMAIN i).validationStatus = NSECVal.VALID ↔ (nsecNXDOMAIN i).errors = [])) ∧
    (∀ i : NSECWCInput,
      ((nsecWildcard i).validationStatus = NSECVal.VALID ↔ (nsecWildcard i).errors = [])) ∧
    (∀ i : NSECNAInput,
      ((nsecNoAnswer i).validationStatus = NSECVal.VALID ↔ (nsecNoAnswer i).errors = [])) ∧
    (∀ i : CNAMEInput,
      ((cnameStatus i).validationStatus = DNAMEVal.VALID ↔ (cnameStatus i).errors = [])) ∧
    (∀ i : NSEC3NXInput,
      ((nsec3NXDOMAIN i).validationStatus = NSECVal.VALID → (nsec3NXDOMAIN i).errors = []) ∧
      ((nsec3NXDOMAIN i).validationStatus ≠ NSECVal.VALID →
        (i.view.validAlgs ≠ [] ∨ i.view.invalidAlgs ≠ []) → (nsec3NXDOMAIN i).errors ≠ [])) ∧
    (∀ i : NSEC3WCInput,
      ((nsec3Wildcard i).validationStatus = NSECVal.VALID → (nsec3Wildcard i).errors = []) ∧
      ((nsec3Wildcard i).validationStatus ≠ NSECVal.VALID →
        (i.view.validAlgs ≠ [] ∨ i.view.invalidAlgs ≠ []) → (nsec3Wildcard i).errors ≠ [])) ∧
    (∀ i : NSEC3NAInput, ∀ r, nsec3NoAnswer i = some r →
      ((r.validationStatus = NSECVal.VALID → r.errors = []) ∧
       (r.validationStatus ≠ NSECVal.VALID →
        (i.view.validAlgs ≠ [] ∨ i.view.invalidAlgs ≠ []) → r.errors ≠ []))) ∧
    (∀ i : RRSIGInput, ∀ r, rrsigStatus i = some r →
      rrsigHard r.validationStatus → r.errors ≠ []) ∧
    (∀ i : DSInput, ∀ r, dsStatus i = some r → dsHard r.validationStatus → r.errors ≠ []) :=
  ⟨nsecNXDOMAIN_parity, nsecWildcard_parity, nsecNoAnswer_parity, cname_parity,
   nsec3NXDOMAIN_parity, nsec3Wildcard_parity, nsec3NoAnswer_parity,
   rrsigStatus_hard_errors, dsStatus_hard_errors⟩

/-- C1 witness: the RRSIG hard-status component applied to a concrete
expired evaluation. -/
theorem error_list_parity_amended_witness :
    (⟨RRSIGVal.EXPIRED, [], [DNSErr.ExpirationInPast], some true⟩ : RRSIGState).errors ≠ [] :=
  error_list_parity_amended.2.2.2.2.2.2.2.1 exRRSIGExpired
    ⟨RRSIGVal.EXPIRED, [], [DNSErr.ExpirationInPast], some true⟩ (by decide) (by decide)

/-! ## Claim theorem C4 (code bug) -/

/-- C4: at the concrete failing input, where a hashed wildcard of the
closest encloser matches an NSEC3 owner, no NSEC3 covers the hashed next
closer name, and a valid algorithm is present, the
NSEC3StatusNoAnswer construction does not complete: the source raises
NameError on the unbound next_closest_encloser (status.py 1127), modelled
here as the none result. -/
theorem nsec3_noanswer_wildcard_branch_raises : nsec3NoAnswer exNSEC3Crash = none := by decide

/-! ## Claim theorem C7 -/

theorem foldl_fixed_of_forall_mem {α β : Type} (l : List β) (f : α → β → α) (acc : α)
    (h : ∀ b ∈ l, ∀ a, f a b = a) : l.foldl f acc = acc := by
  induction l generalizing acc with
  | nil => rfl
  | cons x xs ih =>
    rw [List.foldl_cons, h x (List.mem_cons_self x xs)]
    exact ih acc (fun b hb a => h b (List.mem_cons_of_mem x hb) a)

theorem nsec3NXMaps_none (v : NSEC3Set) (q : Name) (encs : List Name)
    (hd : ∀ p ∈ v.params, ∀ n, v.digest n p = none) :
    nsec3NXMaps v q encs = ([], []) := by
  unfold nsec3NXMaps
  apply foldl_fixed_of_forall_mem
  intro enc _ acc
  apply foldl_fixed_of_forall_mem
  intro p hp acc2
  rw [hd p hp, hd p hp]

/-- C7: an NSEC3 NXDOMAIN evaluation whose view reports no valid algorithm
and at least one invalid algorithm (so every digest is none, per the view
contract that digests exist only for supported algorithms) is INVALID and
records exactly one UnsupportedNSEC3Algorithm error, with no semantic
error. -/
theorem nsec3_nxdomain_unsupported_algorithm_only (i : NSEC3NXInput) (a : Nat) (rest : List Nat)
    (hva : i.view.validAlgs = []) (hia : i.view.invalidAlgs = a :: rest)
    (hd : ∀ p ∈ i.view.params, ∀ n, (i.view.digest n p).isSome = true → p.alg ∈ i.view.validAlgs) :
    (nsec3NXDOMAIN i).validationStatus = NSECVal.INVALID ∧
    (nsec3NXDOMAIN i).errors = [DNSErr.UnsupportedNSEC3Algorithm a] := by
  have hd0 : ∀ p ∈ i.view.params, ∀ n, i.view.digest n p = none := by
    intro p hp n
    rcases hdn : i.view.digest n p with _ | d
    · rfl
    · exact absurd (hd p hp n (by rw [hdn]; rfl)) (by rw [hva]; exact List.not_mem_nil _)
  have hmaps := nsec3NXMaps_none i.view i.qname (i.view.closestEncloser.map (fun x => x.1)) hd0
  simp only [nsec3NXDOMAIN, hmaps, hva, hia]
  split_ifs <;> simp_all

/-- C7 witness: the concrete unsupported-algorithm-only view. -/
theorem nsec3_nxdomain_unsupported_algorithm_only_witness :
    (nsec3NXDOMAIN exNSEC3Unsupp).validationStatus = NSECVal.INVALID ∧
    (nsec3NXDOMAIN exNSEC3Unsupp).errors = [DNSErr.UnsupportedNSEC3Algorithm 99] :=
  nsec3_nxdomain_unsupported_algorithm_only exNSEC3Unsupp 99 [] rfl rfl
    (fun p hp => by cases hp <;> simp_all [exNSEC3Unsupp, exNSEC3UnsuppView])

/-! ## Claim theorem C8 -/

/-- C8: an NSEC3 NODATA evaluation for rdtype DS where no NSEC3 matches
the qname hash, no NSEC3 matches a wildcard of a closest-encloser
candidate, some NSEC3 covers the next-closer hash, and one of those
covering NSEC3 records has flag bit 0 (opt-out) set, completes with status
VALID, an empty errors list, and opt_out true. -/
theorem nsec3_noanswer_ds_optout (i : NSEC3NAInput)
    (hds : i.rdtype = RDTYPE_DS)
    (hq : (nsec3naQnameLoop i.view i.qname i.rdtype).matchQ = [])
    (hw : (nsec3naWildcardMatch i.view i.rdtype).1 = [])
    (hcov : (nsec3naQnameLoop i.view i.qname i.rdtype).covQ ≠ [])
    (hopt : ((nsec3naQnameLoop i.view i.qname i.rdtype).covQ.any
        (fun p => p.2.any (fun n => i.view.flags n &&& 1 ≠ 0))) = true) :
    ∃ r, nsec3NoAnswer i = some r ∧ r.validationStatus = NSECVal.VALID ∧
      r.errors = [] ∧ r.optOut = true := by
  rw [hds] at hq hw hcov hopt
  simp only [nsec3NoAnswer, hds]
  simp only [hq, hw, hcov, hopt]
  rw [if_pos (⟨trivial, hcov⟩ :
    True ∧ ¬(nsec3naQnameLoop i.view i.qname RDTYPE_DS).covQ = [])]
  exact ⟨_, rfl, rfl, rfl, rfl⟩

/-- C8 witness: the concrete opt-out input. -/
theorem nsec3_noanswer_ds_optout_witness :
    ∃ r, nsec3NoAnswer exNSEC3OptOut = some r ∧ r.validationStatus = NSECVal.VALID ∧
      r.errors = [] ∧ r.optOut = true :=
  nsec3_noanswer_ds_optout exNSEC3OptOut rfl (by decide) (by decide) (by decide) (by decide)

/-! ## Helper lemmas: retained projections -/

theorem nsecProject_subset (v : NSECSet) (keep : List Name) : nsecProject v keep ⊆ v.owners :=
  fun _ hx => (List.mem_filter.mp hx).1

theorem nsec3Project_subset (v : NSEC3Set) (keep : List Name) : nsec3Project v keep ⊆ v.owners :=
  fun _ hx => (List.mem_filter.mp hx).1

theorem nsecNXDOMAIN_retained (i : NSECNXInput) :
    ((nsecNXDOMAIN i).validationStatus = NSECVal.VALID →
      (nsecNXDOMAIN i).retained =
        nsecProject i.view ((nsecNXDOMAIN i).coveringQname ++ (nsecNXDOMAIN i).coveringWildcard)) ∧
    ((nsecNXDOMAIN i).validationStatus ≠ NSECVal.VALID →
      (nsecNXDOMAIN i).retained = i.view.owners) := by
  simp only [nsecNXDOMAIN]
  split_ifs <;> simp_all

theorem nsecWildcard_retained (i : NSECWCInput) :
    ((nsecWildcard i).validationStatus = NSECVal.VALID →
      (nsecWildcard i).retained = nsecProject i.view (nsecWildcard i).coveringQname) ∧
    ((nsecWildcard i).validationStatus ≠ NSECVal.VALID →
      (nsecWildcard i).retained = i.view.owners) := by
  simp only [nsecWildcard]
  split_ifs <;> simp_all

theorem nsecNoAnswer_retained (i : NSECNAInput) :
    ((nsecNoAnswer i).validationStatus = NSECVal.VALID →
      (nsecNoAnswer i).retained = nsecProject i.view
        ((match (nsecNoAnswer i).nsecForQname with
          | some o => [o]
          | none => (nsecNoAnswer i).coveringQname) ++
         (match (nsecNoAnswer i).nsecForWildcard with
          | some _ => [(nsecNoAnswer i).wildcardName]
          | none => []))) ∧
    ((nsecNoAnswer i).validationStatus ≠ NSECVal.VALID →
      (nsecNoAnswer i).retained = i.view.owners) := by
  simp only [nsecNoAnswer]
  rcases hm : nsecNAMatch i.view i.qname with _ | o <;>
    rcases hs : nsecNAWildScan i.view i.origin i.rel with _ | w <;>
      simp only [hm, hs] <;> (try split_ifs) <;> simp_all

theorem nsec3NXDOMAIN_retained (i : NSEC3NXInput) :
    ((nsec3NXDOMAIN i).validationStatus = NSECVal.VALID →
      (nsec3NXDOMAIN i).retained = nsec3Project i.view
        (alValues i.view.closestEncloser ++ alValues (nsec3NXDOMAIN i).coveringQname ++
         alValues (nsec3NXDOMAIN i).coveringWildcard)) ∧
    ((nsec3NXDOMAIN i).validationStatus ≠ NSECVal.VALID →
      (nsec3NXDOMAIN i).retained = i.view.owners) := by
  rcases hia : i.view.invalidAlgs with _ | ⟨a, rest⟩ <;>
    simp only [nsec3NXDOMAIN, hia] <;> (try split_ifs) <;> simp_all

theorem nsec3Wildcard_retained (i : NSEC3WCInput) :
    ((nsec3Wildcard i).validationStatus = NSECVal.VALID →
      (nsec3Wildcard i).retained = nsec3Project i.view
        (alValues (if i.view.closestEncloser = [] then [(i.wildcardName.drop 1, [])]
                   else i.view.closestEncloser) ++
         alValues (nsec3Wildcard i).coveringQname)) ∧
    ((nsec3Wildcard i).validationStatus ≠ NSECVal.VALID →
      (nsec3Wildcard i).retained = i.view.owners) := by
  rcases hia : i.view.invalidAlgs with _ | ⟨a, rest⟩ <;>
    simp only [nsec3Wildcard, hia] <;> (try split_ifs) <;> simp_all

theorem nsec3NoAnswer_retained (i : NSEC3NAInput) (r : NSEC3NAResult)
    (h : nsec3NoAnswer i = some r) :
    (r.validationStatus = NSECVal.VALID →
      r.retained = nsec3Project i.view
        (alValues i.view.closestEncloser ++
         (if r.nsecForQname ≠ [] then r.nsecForQname else alValues r.coveringQname) ++
         r.nsecForWildcard)) ∧
    (r.validationStatus ≠ NSECVal.VALID → r.retained = i.view.owners) := by
  rcases hia : i.view.invalidAlgs with _ | ⟨a, rest⟩ <;>
    simp only [nsec3NoAnswer, hia] at h <;> split_ifs at h <;> simp_all <;>
    (try subst h) <;> simp_all

/-! ## Claim theorem C3 -/

/-- C3: for each denial evaluator, a VALID result retains the projection
of the input view onto exactly the owner names cited by the proof (the
covering, matching, and closest-encloser name sets it recorded), which is
a subset of the input owners; a non-VALID result retains every owner of
the input view.  For NSEC3StatusNoAnswer this holds on every completed
construction. -/
theorem retained_view_projection :
    (∀ i : NSECNXInput,
      ((nsecNXDOMAIN i).validationStatus = NSECVal.VALID →
        (nsecNXDOMAIN i).retained =
          nsecProject i.view ((nsecNXDOMAIN i).coveringQname ++ (nsecNXDOMAIN i).coveringWildcard) ∧
        (nsecNXDOMAIN i).retained ⊆ i.view.owners) ∧
      ((nsecNXDOMAIN i).validationStatus ≠ NSECVal.VALID →
        (nsecNXDOMAIN i).retained = i.view.owners)) ∧
    (∀ i : NSECWCInput,
      ((nsecWildcard i).validationStatus = NSECVal.VALID →
        (nsecWildcard i).retained = nsecProject i.view (nsecWildcard i).coveringQname ∧
        (nsecWildcard i).retained ⊆ i.view.owners) ∧
      ((nsecWildcard i).validationStatus ≠ NSECVal.VALID →
        (nsecWildcard i).retained = i.view.owners)) ∧
    (∀ i : NSECNAInput,
      ((nsecNoAnswer i).validationStatus = NSECVal.VALID →
        (nsecNoAnswer i).retained = nsecProject i.view
          ((match (nsecNoAnswer i).nsecForQname with
            | some o => [o]
            | none => (nsecNoAnswer i).coveringQname) ++
           (match (nsecNoAnswer i).nsecForWildcard with
            | some _ => [(nsecNoAnswer i).wildcardName]
            | none => [])) ∧
        (nsecNoAnswer i).retained ⊆ i.view.owners) ∧
      ((nsecNoAnswer i).validationStatus ≠ NSECVal.VALID →
        (nsecNoAnswer i).retained = i.view.owners)) ∧
    (∀ i : NSEC3NXInput,
      ((nsec3NXDOMAIN i).validationStatus = NSECVal.VALID →
        (nsec3NXDOMAIN i).retained = nsec3Project i.view
          (alValues i.view.closestEncloser ++ alValues (nsec3NXDOMAIN i).coveringQname ++
           alValues (nsec3NXDOMAIN i).coveringWildcard) ∧
        (nsec3NXDOMAIN i).retained ⊆ i.view.owners) ∧
      ((nsec3NXDOMAIN i).validationStatus ≠ NSECVal.VALID →
        (nsec3NXDOMAIN i).retained = i.view.owners)) ∧
    (∀ i : NSEC3WCInput,
      ((nsec3Wildcard i).validationStatus = NSECVal.VALID →
        (nsec3Wildcard i).retained = nsec3Project i.view
          (alValues (if i.view.closestEncloser = [] then [(i.wildcardName.drop 1, [])]
                     else i.view.closestEncloser) ++
           alValues (nsec3Wildcard i).coveringQname) ∧
        (nsec3Wildcard i).retained ⊆ i.view.owners) ∧
      ((nsec3Wildcard i).validationStatus ≠ NSECVal.VALID →
        (nsec3Wildcard i).retained = i.view.owners)) ∧
    (∀ i : NSEC3NAInput, ∀ r, nsec3NoAnswer i = some r →
      ((r.validationStatus = NSECVal.VALID →
        r.retained = nsec3Project i.view
          (alValues i.view.closestEncloser ++
           (if r.nsecForQname ≠ [] then r.nsecForQname else alValues r.coveringQname) ++
           r.nsecForWildcard) ∧
        r.retained ⊆ i.view.owners) ∧
      (r.validationStatus ≠ NSECVal.VALID → r.retained = i.view.owners))) := by
  refine ⟨fun i => ⟨fun h => ?_, (nsecNXDOMAIN_retained i).2⟩,
    fun i => ⟨fun h => ?_, (nsecWildcard_retained i).2⟩,
    fun i => ⟨fun h => ?_, (nsecNoAnswer_retained i).2⟩,
    fun i => ⟨fun h => ?_, (nsec3NXDOMAIN_retained i).2⟩,
    fun i => ⟨fun h => ?_, (nsec3Wildcard_retained i).2⟩,
    fun i r hr => ⟨fun h => ?_, (nsec3NoAnswer_retained i r hr).2⟩⟩
  · exact ⟨(nsecNXDOMAIN_retained i).1 h,
      by rw [(nsecNXDOMAIN_retained i).1 h]; exact nsecProject_subset _ _⟩
  · exact ⟨(nsecWildcard_retained i).1 h,
      by rw [(nsecWildcard_retained i).1 h]; exact nsecProject_subset _ _⟩
  · exact ⟨(nsecNoAnswer_retained i).1 h,
      by rw [(nsecNoAnswer_retained i).1 h]; exact nsecProject_subset _ _⟩
  · exact ⟨(nsec3NXDOMAIN_retained i).1 h,
      by rw [(nsec3NXDOMAIN_retained i).1 h]; exact nsec3Project_subset _ _⟩
  · exact ⟨(nsec3Wildcard_retained i).1 h,
      by rw [(nsec3Wildcard_retained i).1 h]; exact nsec3Project_subset _ _⟩
  · exact ⟨(nsec3NoAnswer_retained i r hr).1 h,
      by rw [(nsec3NoAnswer_retained i r hr).1 h]; exact nsec3Project_subset _ _⟩

/-- C3 witness: the NSEC NXDOMAIN component at a concrete VALID proof. -/
theorem retained_view_projection_witness :
    (nsecNXDOMAIN exNSECNX).retained =
      nsecProject exNSECNX.view
        ((nsecNXDOMAIN exNSECNX).coveringQname ++ (nsecNXDOMAIN exNSECNX).coveringWildcard) ∧
    (nsecNXDOMAIN exNSECNX).retained ⊆ exNSECNX.view.owners :=
  (retained_view_projection.1 exNSECNX).1 (by decide)

/-! ## Helper lemmas: serialize key membership -/

theorem rrsigKeys_desc_status (r : RRSIGState) (lvl : Nat) :
    ("description" ∈ rrsigSerializeKeys r lvl ↔ (lvl ≤ 20 ∨ rrsigShowBasic r lvl = true)) ∧
    ("status" ∈ rrsigSerializeKeys r lvl ↔ (lvl ≤ 20 ∨ rrsigShowBasic r lvl = true)) := by
  simp only [rrsigSerializeKeys]
  split_ifs <;> simp_all

theorem dsKeys_desc_status (r : DSState) (lvl : Nat) :
    ("description" ∈ dsSerializeKeys r lvl ↔ (lvl ≤ 20 ∨ dsShowBasic r lvl = true)) ∧
    ("status" ∈ dsSerializeKeys r lvl ↔ (lvl ≤ 20 ∨ dsShowBasic r lvl = true)) := by
  simp only [dsSerializeKeys]
  split_ifs <;> simp_all

theorem denialKeys_desc_status (ek : String) (st : NSECVal) (w e : List DNSErr)
    (lvl : Nat) (ev : Bool) (h1 : ek ≠ "description") (h2 : ek ≠ "status") :
    ("description" ∈ denialSerializeKeys ek st w e lvl ev ↔
      (lvl ≤ 20 ∨ denialShowBasic st w e lvl = true)) ∧
    ("status" ∈ denialSerializeKeys ek st w e lvl ev ↔
      (lvl ≤ 20 ∨ denialShowBasic st w e lvl = true)) := by
  have h1s : ("description" = ek) = False := by simp [Ne.symm h1]
  have h2s : ("status" = ek) = False := by simp [Ne.symm h2]
  simp only [denialSerializeKeys]
  split_ifs <;> simp_all

theorem cnameKeys_desc_status (r : CNAMEResult) (lvl : Nat) (dnameShown : Bool) :
    ("description" ∈ cnameSerializeKeys r lvl dnameShown ↔
      (lvl ≤ 20 ∨ cnameShowBasic r lvl = true)) ∧
    ("status" ∈ cnameSerializeKeys r lvl dnameShown ↔
      (lvl ≤ 20 ∨ r.validationStatus ≠ DNAMEVal.VALID)) := by
  simp only [cnameSerializeKeys]
  split_ifs <;> simp_all

/-! ## Claim theorem C9 (amended) with counterexample -/

/-- C9 counterexample: a CNAMEFromDNAMEStatus with a TTL-mismatch warning
and a VALID status, serialized at loglevel WARNING, includes the
description key (show_basic holds) but not the status key, so the two keys
are not gated by the same condition. -/
theorem serialize_keys_counterexample :
    cnameShowBasic (cnameStatus exCNAMETTLMismatch) 30 = true ∧
    ¬ (30 ≤ 20) ∧
    "description" ∈ cnameSerializeKeys (cnameStatus exCNAMETTLMismatch) 30 false ∧
    "status" ∉ cnameSerializeKeys (cnameStatus exCNAMETTLMismatch) 30 false := by decide

/-- C9 amended: for RRSIGStatus, DSStatus, and the six denial evaluators,
serialize emits both the description key and the status key exactly when
loglevel is at most INFO or show_basic holds; CNAMEFromDNAMEStatus gates
description the same way but gates status on loglevel at most INFO or a
non-VALID validation status, so a warning alone surfaces description
without status. -/
theorem serialize_description_status_keys :
    (∀ r : RRSIGState, ∀ lvl : Nat,
      ("description" ∈ rrsigSerializeKeys r lvl ↔ (lvl ≤ 20 ∨ rrsigShowBasic r lvl = true)) ∧
      ("status" ∈ rrsigSerializeKeys r lvl ↔ (lvl ≤ 20 ∨ rrsigShowBasic r lvl = true))) ∧
    (∀ r : DSState, ∀ lvl : Nat,
      ("description" ∈ dsSerializeKeys r lvl ↔ (lvl ≤ 20 ∨ dsShowBasic r lvl = true)) ∧
      ("status" ∈ dsSerializeKeys r lvl ↔ (lvl ≤ 20 ∨ dsShowBasic r lvl = true))) ∧
    (∀ r : NSECNXResult, ∀ lvl : Nat, ∀ ev : Bool,
      ("description" ∈ nsecNXSerializeKeys r lvl ev ↔
        (lvl ≤ 20 ∨ denialShowBasic r.validationStatus [] r.errors lvl = true)) ∧
      ("status" ∈ nsecNXSerializeKeys r lvl ev ↔
        (lvl ≤ 20 ∨ denialShowBasic r.validationStatus [] r.errors lvl = true))) ∧
    (∀ r : NSECWCResult, ∀ lvl : Nat, ∀ ev : Bool,
      ("description" ∈ nsecWCSerializeKeys r lvl ev ↔
        (lvl ≤ 20 ∨ denialShowBasic r.validationStatus [] r.errors lvl = true)) ∧
      ("status" ∈ nsecWCSerializeKeys r lvl ev ↔
        (lvl ≤ 20 ∨ denialShowBasic r.validationStatus [] r.errors lvl = true))) ∧
    (∀ r : NSECNAResult, ∀ lvl : Nat, ∀ ev : Bool,
      ("description" ∈ nsecNASerializeKeys r lvl ev ↔
        (lvl ≤ 20 ∨ denialShowBasic r.validationStatus [] r.errors lvl = true)) ∧
      ("status" ∈ nsecNASerializeKeys r lvl ev ↔
        (lvl ≤ 20 ∨ denialShowBasic r.validationStatus [] r.errors lvl = true))) ∧
    (∀ r : NSEC3NXResult, ∀ lvl : Nat, ∀ ev : Bool,
      ("description" ∈ nsec3NXSerializeKeys r lvl ev ↔
        (lvl ≤ 20 ∨ denialShowBasic r.validationStatus [] r.errors lvl = true)) ∧
      ("status" ∈ nsec3NXSerializeKeys r lvl ev ↔
        (lvl ≤ 20 ∨ denialShowBasic r.validationStatus [] r.errors lvl = true))) ∧
    (∀ r : NSEC3WCResult, ∀ lvl : Nat, ∀ ev : Bool,
      ("description" ∈ nsec3WCSerializeKeys r lvl ev ↔
        (lvl ≤ 20 ∨ denialShowBasic r.validationStatus [] r.errors lvl = true)) ∧
      ("status" ∈ nsec3WCSerializeKeys r lvl ev ↔
        (lvl ≤ 20 ∨ denialShowBasic r.validationStatus [] r.errors lvl = true))) ∧
    (∀ r : NSEC3NAResult, ∀ lvl : Nat, ∀ ev : Bool,
      ("description" ∈ nsec3NASerializeKeys r lvl ev ↔
        (lvl ≤ 20 ∨ denialShowBasic r.validationStatus [] r.errors lvl = true)) ∧
      ("status" ∈ nsec3NASerializeKeys r lvl ev ↔
        (lvl ≤ 20 ∨ denialShowBasic r.validationStatus [] r.errors lvl = true))) ∧
    (∀ r : CNAMEResult, ∀ lvl : Nat, ∀ dnameShown : Bool,
      ("description" ∈ cnameSerializeKeys r lvl dnameShown ↔
        (lvl ≤ 20 ∨ cnameShowBasic r lvl = true)) ∧
      ("status" ∈ cnameSerializeKeys r lvl dnameShown ↔
        (lvl ≤ 20 ∨ r.validationStatus ≠ DNAMEVal.VALID))) :=
  ⟨rrsigKeys_desc_status, dsKeys_desc_status,
   fun r lvl ev => denialKeys_desc_status "nsec" r.validationStatus [] r.errors lvl ev
     (by decide) (by decide),
   fun r lvl ev => denialKeys_desc_status "nsec" r.validationStatus [] r.errors lvl ev
     (by decide) (by decide),
   fun r lvl ev => denialKeys_desc_status "nsec" r.validationStatus [] r.errors lvl ev
     (by decide) (by decide),
   fun r lvl ev => denialKeys_desc_status "nsec3" r.validationStatus [] r.errors lvl ev
     (by decide) (by decide),
   fun r lvl ev => denialKeys_desc_status "nsec3" r.validationStatus [] r.errors lvl ev
     (by decide) (by decide),
   fun r lvl ev => denialKeys_desc_status "nsec3" r.validationStatus [] r.errors lvl ev
     (by decide) (by decide),
   cnameKeys_desc_status⟩

end DNSViz
